import Mathlib

/-!
A shallow embedding of the permit-python SDK (resource API classes
`TenantsApi`, `UsersApi`, `EnvironmentsApi`, and the generated openapi
endpoint modules `get_data_for_user` and `create_resource`), together with
theorems about the guard, pagination, URL and unmarshalling behaviour of
the embedded operations.

HTTP itself is outside the program: every operation is parameterised by an
oracle mapping each issued request to the remote response, and returns the
list of requests it issued alongside its outcome.
-/

namespace Permit

/-- A JSON-like value, used for query parameters, request bodies and
response payloads (Python dict/list/str/int/bool/None values). -/
inductive Value where
  | null
  | boolVal (b : Bool)
  | num (n : Int)
  | str (s : String)
  | arr (elems : List Value)
  | obj (fields : List (String × Value))

/-- Python str() as used when a value is spliced into an f-string URL
(`f"/{user_key}"`). Only `str` and `num` values reach URLs in the SDK;
the composite cases approximate Python rendering. -/
def Value.format : Value → String
  | .null => "None"
  | .boolVal true => "True"
  | .boolVal false => "False"
  | .num n => toString n
  | .str s => s
  | .arr _ => "[...]"
  | .obj _ => "{...}"

/-- Python `is None`. -/
def Value.isNull : Value → Bool
  | .null => true
  | _ => false

/-- A Python dict with string keys, as passed to `UsersApi.sync`. -/
def PyDict := List (String × Value)

/-- Python `d.pop(k, None)`: returns the stored value when the key is
present (`none` when absent) together with the dict after removal of the
entry. -/
def PyDict.pop (d : PyDict) (k : String) : Option Value × PyDict :=
  (List.lookup k d, List.filter (fun p => p.1 != k) d)

/-- The API-key scope levels of the `ApiKeyLevel` enum referenced by the
endpoint guards. -/
inductive ApiKeyLevel where
  | ORGANIZATION_LEVEL_API_KEY
  | PROJECT_LEVEL_API_KEY
  | ENVIRONMENT_LEVEL_API_KEY
deriving DecidableEq, Repr

/-- Modelled from the spec: the SDK's ApiContext (`config.api_context`,
from the `permit.api.context` module, whose source is not in the excerpt):
the scope level granted by the configured API key together with the
project and environment the context points at (`api_context.project`,
`api_context.environment`). -/
structure ApiContext where
  level : ApiKeyLevel
  project : String
  environment : String
deriving DecidableEq, Repr

/-- `LoggerConfig` from permit/config.py. -/
structure LoggerConfig where
  level : String := "info"
  label : String := "Permit"
  log_as_json : Bool := false
deriving DecidableEq, Repr

/-- `MultiTenancyConfig` from permit/config.py. -/
structure MultiTenancyConfig where
  default_tenant : String := "default"
  use_default_tenant_if_empty : Bool := true
deriving DecidableEq, Repr

/-- `PermitConfig` from permit/config.py. The `api_context` field is
modelled from the spec: the API classes read `config.api_context` although
the excerpted config.py does not declare it. -/
structure PermitConfig where
  token : String
  pdp : String := "http://localhost:7766"
  api_url : String := "https://api.permit.io"
  log : LoggerConfig := LoggerConfig.mk "info" "Permit" false
  multi_tenancy : MultiTenancyConfig := MultiTenancyConfig.mk "default" true
  api_context : ApiContext
deriving DecidableEq, Repr

/-- Replace the configured api context (Python mutates `config.api_context`
in place; here the mutation is explicit state passing). -/
def PermitConfig.setApiContext (cfg : PermitConfig) (ctx : ApiContext) : PermitConfig :=
  PermitConfig.mk cfg.token cfg.pdp cfg.api_url cfg.log cfg.multi_tenancy ctx

/-- HTTP verbs used by the SDK. -/
inductive HttpMethod where
  | get
  | post
  | put
  | patch
  | delete
deriving DecidableEq, Repr

/-- An HTTP request as assembled by the SDK before it is handed to the
HTTP library (the `kwargs` dict of the openapi modules; the url, query
params and json body of the resource-API client calls). -/
structure HttpRequest where
  method : HttpMethod
  url : String
  params : List (String × Value)
  body : Option Value
  headers : List (String × String)
  cookies : List (String × Value)
  timeout : Int

/-- An HTTP response as seen by the SDK. `json` is the payload
`response.json()` would decode from `content`. -/
structure HttpResponse where
  status_code : Nat
  content : String
  headers : List (String × String)
  json : Value

/-- The oracle standing for the remote service: what response comes back
for each request the SDK issues. -/
abbrev Oracle := HttpRequest → HttpResponse

/-- The errors the resource API raises: `PermitContextError` from the
scope guard, `PermitApiError` for error HTTP status codes, Python
`KeyError` from `UsersApi.sync`. -/
inductive PermitError where
  | contextError (message : String)
  | apiError (status : Nat)
  | keyError (message : String)
deriving DecidableEq, Repr

/-- The observable effect of one resource-API endpoint call: the HTTP
requests it issued (in order) and its outcome. -/
structure CallResult where
  requests : List HttpRequest
  outcome : Except PermitError HttpResponse

/-- Modelled from the spec: the `SimpleHttpClient` returned by
`BasePermitApi._build_http_client` (the `permit.api.base` module, whose
source is not in the excerpt); it marshals typed requests into HTTP calls
against a fixed base url. -/
structure SimpleHttpClient where
  base_url : String
deriving DecidableEq, Repr

/-- Modelled from the spec: an error HTTP status code makes the client
raise `PermitApiError` (per the endpoint docstrings). -/
def checkStatus (resp : HttpResponse) : Except PermitError HttpResponse :=
  if 400 ≤ resp.status_code then Except.error (PermitError.apiError resp.status_code)
  else Except.ok resp

/-- Modelled from the spec: `SimpleHttpClient.get`. -/
def SimpleHttpClient.get (c : SimpleHttpClient) (path : String)
    (params : List (String × Value)) (o : Oracle) : CallResult :=
  let req : HttpRequest := ⟨.get, c.base_url ++ path, params, none, [], [], 0⟩
  ⟨[req], checkStatus (o req)⟩

/-- Modelled from the spec: `SimpleHttpClient.post`. -/
def SimpleHttpClient.post (c : SimpleHttpClient) (path : String)
    (body : Option Value) (o : Oracle) : CallResult :=
  let req : HttpRequest := ⟨.post, c.base_url ++ path, [], body, [], [], 0⟩
  ⟨[req], checkStatus (o req)⟩

/-- Modelled from the spec: `SimpleHttpClient.put`. -/
def SimpleHttpClient.put (c : SimpleHttpClient) (path : String)
    (body : Option Value) (o : Oracle) : CallResult :=
  let req : HttpRequest := ⟨.put, c.base_url ++ path, [], body, [], [], 0⟩
  ⟨[req], checkStatus (o req)⟩

/-- Modelled from the spec: `SimpleHttpClient.patch`. -/
def SimpleHttpClient.patch (c : SimpleHttpClient) (path : String)
    (body : Option Value) (o : Oracle) : CallResult :=
  let req : HttpRequest := ⟨.patch, c.base_url ++ path, [], body, [], [], 0⟩
  ⟨[req], checkStatus (o req)⟩

/-- Modelled from the spec: `SimpleHttpClient.delete` (takes an optional
json body: `UsersApi.unassign_role` passes one). -/
def SimpleHttpClient.delete (c : SimpleHttpClient) (path : String)
    (body : Option Value) (o : Oracle) : CallResult :=
  let req : HttpRequest := ⟨.delete, c.base_url ++ path, [], body, [], [], 0⟩
  ⟨[req], checkStatus (o req)⟩

/-- Modelled from the spec: `BasePermitApi._build_http_client` builds a
client rooted at the configured REST API url plus the given path. -/
def build_http_client (cfg : PermitConfig) (path : String) : SimpleHttpClient :=
  ⟨cfg.api_url ++ path⟩

/-- Modelled from the spec: the `ensure_context` scope guard. It is a
single conditional comparing the configured API-key level against the
level the endpoint requires, short-circuiting with `PermitContextError`
(and no HTTP request) on mismatch; on match the wrapped endpoint body
runs. -/
def contextFailure : CallResult :=
  ⟨[], Except.error (PermitError.contextError "the API key does not match the required context level")⟩

def ensure_context (required : ApiKeyLevel) (cfg : PermitConfig)
    (call : Unit → CallResult) : CallResult :=
  if cfg.api_context.level = required then call ()
  else contextFailure

/-- Modelled from the spec: `pagination_params` builds the `page` and
`per_page` query parameters from the call's page and per_page arguments. -/
def pagination_params (page per_page : Int) : List (String × Value) :=
  [("page", Value.num page), ("per_page", Value.num per_page)]

/-- Modelled from the spec: a pydantic model whose `.dict()` payload is
sent as a request body (`TenantCreate`). -/
structure TenantCreate where
  dict : Value

/-- Modelled from the spec: `TenantUpdate`. -/
structure TenantUpdate where
  dict : Value

/-- `TenantsApi` (permit/api/tenants.py). The tenants http client is built
once, in `__init__`, from the api context configured at construction
time. -/
structure TenantsApi where
  config : PermitConfig
  tenants : SimpleHttpClient
deriving DecidableEq, Repr

/-- `TenantsApi.__init__`: formats the tenants base path from
`config.api_context` and builds the http client once. -/
def TenantsApi.init (config : PermitConfig) : TenantsApi :=
  ⟨config, build_http_client config
    ("/v2/facts/" ++ config.api_context.project ++ "/" ++ config.api_context.environment ++ "/tenants")⟩

/-- A later in-place change of `config.api_context`: the stored tenants
client keeps the base url string formatted at construction time (Python
never re-runs `__init__`), only the shared config object changes. -/
def TenantsApi.setContext (api : TenantsApi) (ctx : ApiContext) : TenantsApi :=
  ⟨api.config.setApiContext ctx, api.tenants⟩

/-- Body of `TenantsApi.list` (the function wrapped by the decorators). -/
def TenantsApi.list_body (api : TenantsApi) (o : Oracle) (page per_page : Int) : CallResult :=
  api.tenants.get "" (pagination_params page per_page) o

/-- `TenantsApi.list`. -/
def TenantsApi.list (api : TenantsApi) (o : Oracle)
    (page : Int := 1) (per_page : Int := 100) : CallResult :=
  ensure_context .ENVIRONMENT_LEVEL_API_KEY api.config fun _ =>
    api.list_body o page per_page

/-- Body of `TenantsApi.list_tenant_users`. -/
def TenantsApi.list_tenant_users_body (api : TenantsApi) (o : Oracle)
    (tenant_key : String) (page per_page : Int) : CallResult :=
  api.tenants.get ("/" ++ tenant_key ++ "/users") (pagination_params page per_page) o

/-- `TenantsApi.list_tenant_users`. -/
def TenantsApi.list_tenant_users (api : TenantsApi) (o : Oracle) (tenant_key : String)
    (page : Int := 1) (per_page : Int := 100) : CallResult :=
  ensure_context .ENVIRONMENT_LEVEL_API_KEY api.config fun _ =>
    api.list_tenant_users_body o tenant_key page per_page

/-- Body of `TenantsApi.get`. -/
def TenantsApi.get_body (api : TenantsApi) (o : Oracle) (tenant_key : String) : CallResult :=
  api.tenants.get ("/" ++ tenant_key) [] o

/-- `TenantsApi.get`. -/
def TenantsApi.get (api : TenantsApi) (o : Oracle) (tenant_key : String) : CallResult :=
  ensure_context .ENVIRONMENT_LEVEL_API_KEY api.config fun _ =>
    api.get_body o tenant_key

/-- `TenantsApi.get_by_key` (alias: its body calls `self.get`). -/
def TenantsApi.get_by_key (api : TenantsApi) (o : Oracle) (tenant_key : String) : CallResult :=
  ensure_context .ENVIRONMENT_LEVEL_API_KEY api.config fun _ =>
    api.get o tenant_key

/-- `TenantsApi.get_by_id` (alias: its body calls `self.get`). -/
def TenantsApi.get_by_id (api : TenantsApi) (o : Oracle) (tenant_id : String) : CallResult :=
  ensure_context .ENVIRONMENT_LEVEL_API_KEY api.config fun _ =>
    api.get o tenant_id

/-- Body of `TenantsApi.create`. -/
def TenantsApi.create_body (api : TenantsApi) (o : Oracle) (tenant_data : TenantCreate) : CallResult :=
  api.tenants.post "" (some tenant_data.dict) o

/-- `TenantsApi.create`. -/
def TenantsApi.create (api : TenantsApi) (o : Oracle) (tenant_data : TenantCreate) : CallResult :=
  ensure_context .ENVIRONMENT_LEVEL_API_KEY api.config fun _ =>
    api.create_body o tenant_data

/-- Body of `TenantsApi.update`. -/
def TenantsApi.update_body (api : TenantsApi) (o : Oracle)
    (tenant_key : String) (tenant_data : TenantUpdate) : CallResult :=
  api.tenants.patch ("/" ++ tenant_key) (some tenant_data.dict) o

/-- `TenantsApi.update`. -/
def TenantsApi.update (api : TenantsApi) (o : Oracle)
    (tenant_key : String) (tenant_data : TenantUpdate) : CallResult :=
  ensure_context .ENVIRONMENT_LEVEL_API_KEY api.config fun _ =>
    api.update_body o tenant_key tenant_data

/-- Body of `TenantsApi.delete`. -/
def TenantsApi.delete_body (api : TenantsApi) (o : Oracle) (tenant_key : String) : CallResult :=
  api.tenants.delete ("/" ++ tenant_key) none o

/-- `TenantsApi.delete`. -/
def TenantsApi.delete (api : TenantsApi) (o : Oracle) (tenant_key : String) : CallResult :=
  ensure_context .ENVIRONMENT_LEVEL_API_KEY api.config fun _ =>
    api.delete_body o tenant_key

/-- Body of `TenantsApi.delete_tenant_user`. -/
def TenantsApi.delete_tenant_user_body (api : TenantsApi) (o : Oracle)
    (tenant_key user_key : String) : CallResult :=
  api.tenants.delete ("/" ++ tenant_key ++ "/users/" ++ user_key) none o

/-- `TenantsApi.delete_tenant_user`. -/
def TenantsApi.delete_tenant_user (api : TenantsApi) (o : Oracle)
    (tenant_key user_key : String) : CallResult :=
  ensure_context .ENVIRONMENT_LEVEL_API_KEY api.config fun _ =>
    api.delete_tenant_user_body o tenant_key user_key

/-- Modelled from the spec: the `UserCreate` pydantic model: a user key
plus the remaining user fields. -/
structure UserCreate where
  key : String
  attributes : List (String × Value)

/-- The JSON payload sent when a `UserCreate` model is passed as a request
body. -/
def UserCreate.dict (u : UserCreate) : Value :=
  Value.obj (("key", Value.str u.key) :: u.attributes)

/-- Modelled from the spec: `UserUpdate`. -/
structure UserUpdate where
  dict : Value

/-- Modelled from the spec: `RoleAssignmentCreate` (user, role and tenant
keys). -/
structure RoleAssignmentCreate where
  user : String
  role : String
  tenant : String
deriving DecidableEq, Repr

/-- `assignment.dict(exclude set to user)`: the payload without the user
field. -/
def RoleAssignmentCreate.dictExcludeUser (a : RoleAssignmentCreate) : Value :=
  Value.obj [("role", Value.str a.role), ("tenant", Value.str a.tenant)]

/-- Modelled from the spec: `RoleAssignmentRemove`. -/
structure RoleAssignmentRemove where
  user : String
  role : String
  tenant : String
deriving DecidableEq, Repr

/-- `unassignment.dict(exclude set to user)`. -/
def RoleAssignmentRemove.dictExcludeUser (a : RoleAssignmentRemove) : Value :=
  Value.obj [("role", Value.str a.role), ("tenant", Value.str a.tenant)]

/-- `UsersApi` (permit/api/users.py). Unlike `TenantsApi`, it stores no
http client: the `__users` and `__role_assignments` clients are properties,
re-built from the current `config.api_context` on every call. -/
structure UsersApi where
  config : PermitConfig
deriving DecidableEq, Repr

/-- A later in-place change of `config.api_context`. -/
def UsersApi.setContext (api : UsersApi) (ctx : ApiContext) : UsersApi :=
  ⟨api.config.setApiContext ctx⟩

/-- The `__users` property: a client re-built from the current api context
on each access. -/
def UsersApi.users (api : UsersApi) : SimpleHttpClient :=
  build_http_client api.config
    ("/v2/facts/" ++ api.config.api_context.project ++ "/" ++ api.config.api_context.environment ++ "/users")

/-- The `__role_assignments` property. -/
def UsersApi.role_assignments (api : UsersApi) : SimpleHttpClient :=
  build_http_client api.config
    ("/v2/facts/" ++ api.config.api_context.project ++ "/" ++ api.config.api_context.environment ++ "/role_assignments")

/-- Body of `UsersApi.list`. -/
def UsersApi.list_body (api : UsersApi) (o : Oracle) (page per_page : Int) : CallResult :=
  api.users.get "" (pagination_params page per_page) o

/-- `UsersApi.list`. -/
def UsersApi.list (api : UsersApi) (o : Oracle)
    (page : Int := 1) (per_page : Int := 100) : CallResult :=
  ensure_context .ENVIRONMENT_LEVEL_API_KEY api.config fun _ =>
    api.list_body o page per_page

/-- Body of `UsersApi.get`. -/
def UsersApi.get_body (api : UsersApi) (o : Oracle) (user_key : String) : CallResult :=
  api.users.get ("/" ++ user_key) [] o

/-- `UsersApi.get`. -/
def UsersApi.get (api : UsersApi) (o : Oracle) (user_key : String) : CallResult :=
  ensure_context .ENVIRONMENT_LEVEL_API_KEY api.config fun _ =>
    api.get_body o user_key

/-- `UsersApi.get_by_key` (alias: its body calls `self.get`). -/
def UsersApi.get_by_key (api : UsersApi) (o : Oracle) (user_key : String) : CallResult :=
  ensure_context .ENVIRONMENT_LEVEL_API_KEY api.config fun _ =>
    api.get o user_key

/-- `UsersApi.get_by_id` (alias: its body calls `self.get`). -/
def UsersApi.get_by_id (api : UsersApi) (o : Oracle) (user_id : String) : CallResult :=
  ensure_context .ENVIRONMENT_LEVEL_API_KEY api.config fun _ =>
    api.get o user_id

/-- Body of `UsersApi.create`. -/
def UsersApi.create_body (api : UsersApi) (o : Oracle) (user_data : UserCreate) : CallResult :=
  api.users.post "" (some user_data.dict) o

/-- `UsersApi.create`. -/
def UsersApi.create (api : UsersApi) (o : Oracle) (user_data : UserCreate) : CallResult :=
  ensure_context .ENVIRONMENT_LEVEL_API_KEY api.config fun _ =>
    api.create_body o user_data

/-- Body of `UsersApi.update`. -/
def UsersApi.update_body (api : UsersApi) (o : Oracle)
    (user_key : String) (user_data : UserUpdate) : CallResult :=
  api.users.patch ("/" ++ user_key) (some user_data.dict) o

/-- `UsersApi.update`. -/
def UsersApi.update (api : UsersApi) (o : Oracle)
    (user_key : String) (user_data : UserUpdate) : CallResult :=
  ensure_context .ENVIRONMENT_LEVEL_API_KEY api.config fun _ =>
    api.update_body o user_key user_data

/-- `UsersApi.sync` given a dict argument. `user.pop("key", None)` removes
the key entry from the caller's dict; the popped value is `None` both when
the entry is absent and when it is explicitly `None`, and then a `KeyError`
is raised before any HTTP request; otherwise the popped key goes into the
URL path and the remaining dict is sent as the PUT body. The second
component of the result is the post-state of the caller's dict (Python
mutates it in place). -/
def UsersApi.sync_dict_body (api : UsersApi) (o : Oracle) (user : PyDict) :
    CallResult × PyDict :=
  match PyDict.pop user "key" with
  | (none, rest) =>
      (⟨[], Except.error (PermitError.keyError "required 'key' in input dictionary")⟩, rest)
  | (some user_key, rest) =>
      if user_key.isNull then
        (⟨[], Except.error (PermitError.keyError "required 'key' in input dictionary")⟩, rest)
      else
        (api.users.put ("/" ++ user_key.format) (some (Value.obj rest)) o, rest)

def UsersApi.sync_dict (api : UsersApi) (o : Oracle) (user : PyDict) :
    CallResult × PyDict :=
  if api.config.api_context.level = .ENVIRONMENT_LEVEL_API_KEY then
    api.sync_dict_body o user
  else
    (contextFailure, user)

/-- Body of `UsersApi.sync` given a `UserCreate` model: the model's key is
used in the path and the model itself is the PUT body. -/
def UsersApi.sync_model_body (api : UsersApi) (o : Oracle) (user : UserCreate) : CallResult :=
  api.users.put ("/" ++ user.key) (some user.dict) o

/-- `UsersApi.sync` given a `UserCreate` model. -/
def UsersApi.sync_model (api : UsersApi) (o : Oracle) (user : UserCreate) : CallResult :=
  ensure_context .ENVIRONMENT_LEVEL_API_KEY api.config fun _ =>
    api.sync_model_body o user

/-- Body of `UsersApi.delete`. -/
def UsersApi.delete_body (api : UsersApi) (o : Oracle) (user_key : String) : CallResult :=
  api.users.delete ("/" ++ user_key) none o

/-- `UsersApi.delete`. -/
def UsersApi.delete (api : UsersApi) (o : Oracle) (user_key : String) : CallResult :=
  ensure_context .ENVIRONMENT_LEVEL_API_KEY api.config fun _ =>
    api.delete_body o user_key

/-- Body of `UsersApi.assign_role`. -/
def UsersApi.assign_role_body (api : UsersApi) (o : Oracle)
    (assignment : RoleAssignmentCreate) : CallResult :=
  api.users.post ("/" ++ assignment.user ++ "/roles") (some assignment.dictExcludeUser) o

/-- `UsersApi.assign_role`. -/
def UsersApi.assign_role (api : UsersApi) (o : Oracle)
    (assignment : RoleAssignmentCreate) : CallResult :=
  ensure_context .ENVIRONMENT_LEVEL_API_KEY api.config fun _ =>
    api.assign_role_body o assignment

/-- Body of `UsersApi.unassign_role`. -/
def UsersApi.unassign_role_body (api : UsersApi) (o : Oracle)
    (unassignment : RoleAssignmentRemove) : CallResult :=
  api.users.delete ("/" ++ unassignment.user ++ "/roles") (some unassignment.dictExcludeUser) o

/-- `UsersApi.unassign_role`. -/
def UsersApi.unassign_role (api : UsersApi) (o : Oracle)
    (unassignment : RoleAssignmentRemove) : CallResult :=
  ensure_context .ENVIRONMENT_LEVEL_API_KEY api.config fun _ =>
    api.unassign_role_body o unassignment

/-- Body of `UsersApi.get_assigned_roles`: pagination params, then the
`user` filter, then (when given) the `tenant` filter, sent to the
role-assignments client. -/
def UsersApi.get_assigned_roles_body (api : UsersApi) (o : Oracle)
    (user : String) (tenant : Option String) (page per_page : Int) : CallResult :=
  let params := pagination_params page per_page ++ [("user", Value.str user)] ++
    (match tenant with
     | some t => [("tenant", Value.str t)]
     | none => [])
  api.role_assignments.get "" params o

/-- `UsersApi.get_assigned_roles`. -/
def UsersApi.get_assigned_roles (api : UsersApi) (o : Oracle)
    (user : String) (tenant : Option String := none)
    (page : Int := 1) (per_page : Int := 100) : CallResult :=
  ensure_context .ENVIRONMENT_LEVEL_API_KEY api.config fun _ =>
    api.get_assigned_roles_body o user tenant page per_page

/-- Modelled from the spec: `EnvironmentCreate`. -/
structure EnvironmentCreate where
  dict : Value

/-- Modelled from the spec: `EnvironmentUpdate`. -/
structure EnvironmentUpdate where
  dict : Value

/-- Modelled from the spec: `EnvironmentCopy`. -/
structure EnvironmentCopy where
  dict : Value

/-- `EnvironmentsApi` (permit/api/environments.py). `__init__` builds one
http client with an empty path: every endpoint passes its full
`/v2/...` path per call. -/
structure EnvironmentsApi where
  config : PermitConfig
  environments : SimpleHttpClient
deriving DecidableEq, Repr

/-- `EnvironmentsApi.__init__`. -/
def EnvironmentsApi.init (config : PermitConfig) : EnvironmentsApi :=
  ⟨config, build_http_client config ""⟩

/-- Body of `EnvironmentsApi.list`. -/
def EnvironmentsApi.list_body (api : EnvironmentsApi) (o : Oracle)
    (project_key : String) (page per_page : Int) : CallResult :=
  api.environments.get ("/v2/projects/" ++ project_key ++ "/envs")
    (pagination_params page per_page) o

/-- `EnvironmentsApi.list`. -/
def EnvironmentsApi.list (api : EnvironmentsApi) (o : Oracle) (project_key : String)
    (page : Int := 1) (per_page : Int := 100) : CallResult :=
  ensure_context .PROJECT_LEVEL_API_KEY api.config fun _ =>
    api.list_body o project_key page per_page

/-- Body of `EnvironmentsApi.get`. -/
def EnvironmentsApi.get_body (api : EnvironmentsApi) (o : Oracle)
    (project_key environment_key : String) : CallResult :=
  api.environments.get (("/v2/projects/" ++ project_key ++ "/envs") ++ ("/" ++ environment_key)) [] o

/-- `EnvironmentsApi.get`. -/
def EnvironmentsApi.get (api : EnvironmentsApi) (o : Oracle)
    (project_key environment_key : String) : CallResult :=
  ensure_context .PROJECT_LEVEL_API_KEY api.config fun _ =>
    api.get_body o project_key environment_key

/-- `EnvironmentsApi.get_by_key` (alias: its body calls `self.get`). -/
def EnvironmentsApi.get_by_key (api : EnvironmentsApi) (o : Oracle)
    (project_key environment_key : String) : CallResult :=
  ensure_context .PROJECT_LEVEL_API_KEY api.config fun _ =>
    api.get o project_key environment_key

/-- `EnvironmentsApi.get_by_id` (alias: its body calls `self.get`). -/
def EnvironmentsApi.get_by_id (api : EnvironmentsApi) (o : Oracle)
    (project_id environment_id : String) : CallResult :=
  ensure_context .PROJECT_LEVEL_API_KEY api.config fun _ =>
    api.get o project_id environment_id

/-- Body of `EnvironmentsApi.get_stats`. -/
def EnvironmentsApi.get_stats_body (api : EnvironmentsApi) (o : Oracle)
    (project_key environment_key : String) : CallResult :=
  api.environments.get
    (("/v2/projects/" ++ project_key ++ "/envs") ++ ("/" ++ environment_key ++ "/stats")) [] o

/-- `EnvironmentsApi.get_stats`. -/
def EnvironmentsApi.get_stats (api : EnvironmentsApi) (o : Oracle)
    (project_key environment_key : String) : CallResult :=
  ensure_context .PROJECT_LEVEL_API_KEY api.config fun _ =>
    api.get_stats_body o project_key environment_key

/-- Body of `EnvironmentsApi.get_api_key`: its URL is
`/v2/api-key/{project_key}/{environment_key}`, not a path under
`/v2/projects/{project_key}/envs`. -/
def EnvironmentsApi.get_api_key_body (api : EnvironmentsApi) (o : Oracle)
    (project_key environment_key : String) : CallResult :=
  api.environments.get ("/v2/api-key/" ++ project_key ++ "/" ++ environment_key) [] o

/-- `EnvironmentsApi.get_api_key`. -/
def EnvironmentsApi.get_api_key (api : EnvironmentsApi) (o : Oracle)
    (project_key environment_key : String) : CallResult :=
  ensure_context .PROJECT_LEVEL_API_KEY api.config fun _ =>
    api.get_api_key_body o project_key environment_key

/-- Body of `EnvironmentsApi.create`. -/
def EnvironmentsApi.create_body (api : EnvironmentsApi) (o : Oracle)
    (project_key : String) (environment_data : EnvironmentCreate) : CallResult :=
  api.environments.post ("/v2/projects/" ++ project_key ++ "/envs")
    (some environment_data.dict) o

/-- `EnvironmentsApi.create`. -/
def EnvironmentsApi.create (api : EnvironmentsApi) (o : Oracle)
    (project_key : String) (environment_data : EnvironmentCreate) : CallResult :=
  ensure_context .PROJECT_LEVEL_API_KEY api.config fun _ =>
    api.create_body o project_key environment_data

/-- Body of `EnvironmentsApi.update`. -/
def EnvironmentsApi.update_body (api : EnvironmentsApi) (o : Oracle)
    (project_key environment_key : String) (environment_data : EnvironmentUpdate) : CallResult :=
  api.environments.patch
    (("/v2/projects/" ++ project_key ++ "/envs") ++ ("/" ++ environment_key))
    (some environment_data.dict) o

/-- `EnvironmentsApi.update`. -/
def EnvironmentsApi.update (api : EnvironmentsApi) (o : Oracle)
    (project_key environment_key : String) (environment_data : EnvironmentUpdate) : CallResult :=
  ensure_context .PROJECT_LEVEL_API_KEY api.config fun _ =>
    api.update_body o project_key environment_key environment_data

/-- Body of `EnvironmentsApi.copy`. -/
def EnvironmentsApi.copy_body (api : EnvironmentsApi) (o : Oracle)
    (project_key environment_key : String) (copy_params : EnvironmentCopy) : CallResult :=
  api.environments.post
    (("/v2/projects/" ++ project_key ++ "/envs") ++ ("/" ++ environment_key ++ "/copy"))
    (some copy_params.dict) o

/-- `EnvironmentsApi.copy`. -/
def EnvironmentsApi.copy (api : EnvironmentsApi) (o : Oracle)
    (project_key environment_key : String) (copy_params : EnvironmentCopy) : CallResult :=
  ensure_context .PROJECT_LEVEL_API_KEY api.config fun _ =>
    api.copy_body o project_key environment_key copy_params

/-- Body of `EnvironmentsApi.delete`. -/
def EnvironmentsApi.delete_body (api : EnvironmentsApi) (o : Oracle)
    (project_key environment_key : String) : CallResult :=
  api.environments.delete
    (("/v2/projects/" ++ project_key ++ "/envs") ++ ("/" ++ environment_key)) none o

/-- `EnvironmentsApi.delete`. -/
def EnvironmentsApi.delete (api : EnvironmentsApi) (o : Oracle)
    (project_key environment_key : String) : CallResult :=
  ensure_context .PROJECT_LEVEL_API_KEY api.config fun _ =>
    api.delete_body o project_key environment_key

namespace Openapi

/-- Modelled from the spec: the generated openapi `Client`
(permit/openapi/client.py, not in the excerpt): base url, headers,
cookies, timeout and ssl verification flag, with the accessors the
endpoint modules call. -/
structure Client where
  base_url : String
  headers : List (String × String)
  cookies : List (String × Value)
  timeout : Int
  verify_ssl : Bool

/-- `Client.get_headers`. -/
def Client.get_headers (c : Client) : List (String × String) := c.headers

/-- `Client.get_cookies`. -/
def Client.get_cookies (c : Client) : List (String × Value) := c.cookies

/-- `Client.get_timeout`. -/
def Client.get_timeout (c : Client) : Int := c.timeout

/-- Modelled from the spec: `AuthenticatedClient` carries the API token on
top of `Client`; its headers add the authorization header. -/
structure AuthenticatedClient extends Client where
  token : String

/-- `AuthenticatedClient.get_headers`. -/
def AuthenticatedClient.get_headers (c : AuthenticatedClient) : List (String × String) :=
  ("Authorization", "Bearer " ++ c.token) :: c.headers

/-- `AuthenticatedClient.get_cookies`. -/
def AuthenticatedClient.get_cookies (c : AuthenticatedClient) : List (String × Value) :=
  c.cookies

/-- `AuthenticatedClient.get_timeout`. -/
def AuthenticatedClient.get_timeout (c : AuthenticatedClient) : Int := c.timeout

/-- The generated `Response` wrapper (permit/openapi/types.py): status
code, raw content and headers of the HTTP response together with the
parsed payload. -/
structure Response (α : Type) where
  status_code : Nat
  content : String
  headers : List (String × String)
  parsed : Option α

/-- Modelled from the spec: the `HTTPValidationError` pydantic model,
parsed from a 422 response payload. -/
structure HTTPValidationError where
  raw : Value

/-- Modelled from the spec: pydantic `HTTPValidationError.parse_obj`. -/
def HTTPValidationError.parse_obj (j : Value) : HTTPValidationError := ⟨j⟩

/-- Modelled from the spec: the `UserData` pydantic model, parsed from a
200 response payload of the opal-data endpoint. -/
structure UserData where
  raw : Value

/-- Modelled from the spec: pydantic `UserData.parse_obj`. -/
def UserData.parse_obj (j : Value) : UserData := ⟨j⟩

/-- Modelled from the spec: the `ResourceRead` pydantic model. -/
structure ResourceRead where
  raw : Value

/-- Modelled from the spec: pydantic `ResourceRead.parse_obj`. -/
def ResourceRead.parse_obj (j : Value) : ResourceRead := ⟨j⟩

/-- Modelled from the spec: the `ResourceCreate` pydantic model; its
`.dict()` payload is the POST body of create_resource. -/
structure ResourceCreate where
  dict : Value

namespace GetDataForUser

/-- `_get_kwargs` of permit/openapi/api/opal_data/get_data_for_user.py:
the GET request against
`{base_url}/v2/internal/opal_data/{org_id}/{proj_id}/{env_id}/users/{user_id}`
with the client's headers, cookies and timeout. -/
def _get_kwargs (org_id proj_id env_id user_id : String) (client : Client) : HttpRequest :=
  ⟨.get,
   client.base_url ++ ("/v2/internal/opal_data/" ++ org_id ++ "/" ++ proj_id ++ "/" ++ env_id ++ "/users/" ++ user_id),
   [], none, client.get_headers, client.get_cookies, client.get_timeout⟩

/-- `_parse_response`: 200 parses `UserData`, 422 parses
`HTTPValidationError`, anything else gives `None`. -/
def _parse_response (response : HttpResponse) : Option (HTTPValidationError ⊕ UserData) :=
  if response.status_code = 200 then
    some (Sum.inr (UserData.parse_obj response.json))
  else if response.status_code = 422 then
    some (Sum.inl (HTTPValidationError.parse_obj response.json))
  else none

/-- `_build_response`: wraps the parsed value with the response's status
code, content and headers unchanged. -/
def _build_response (response : HttpResponse) : Response (HTTPValidationError ⊕ UserData) :=
  ⟨response.status_code, response.content, response.headers, _parse_response response⟩

/-- `sync_detailed`: builds the kwargs, issues the one request, wraps the
response. The first component records the requests issued. -/
def sync_detailed (org_id proj_id env_id user_id : String) (client : Client) (o : Oracle) :
    List HttpRequest × Response (HTTPValidationError ⊕ UserData) :=
  let kwargs := _get_kwargs org_id proj_id env_id user_id client
  let response := o kwargs
  ([kwargs], _build_response response)

/-- `sync`: `sync_detailed(...).parsed`. -/
def sync (org_id proj_id env_id user_id : String) (client : Client) (o : Oracle) :
    List HttpRequest × Option (HTTPValidationError ⊕ UserData) :=
  let r := sync_detailed org_id proj_id env_id user_id client o
  (r.1, r.2.parsed)

/-- `asyncio_detailed`: the awaited variant; it builds the same kwargs,
issues the one request and wraps the response the same way. -/
def asyncio_detailed (org_id proj_id env_id user_id : String) (client : Client) (o : Oracle) :
    List HttpRequest × Response (HTTPValidationError ⊕ UserData) :=
  let kwargs := _get_kwargs org_id proj_id env_id user_id client
  let response := o kwargs
  ([kwargs], _build_response response)

/-- `asyncio`: `(await asyncio_detailed(...)).parsed`. -/
def asyncio (org_id proj_id env_id user_id : String) (client : Client) (o : Oracle) :
    List HttpRequest × Option (HTTPValidationError ⊕ UserData) :=
  let r := asyncio_detailed org_id proj_id env_id user_id client o
  (r.1, r.2.parsed)

end GetDataForUser

namespace CreateResource

/-- `_get_kwargs` of permit/openapi/api/resources/create_resource.py: the
POST request against `{base_url}/v2/schema/{proj_id}/{env_id}/resources`
with the json body and, when given, the permit_session cookie. -/
def _get_kwargs (proj_id env_id : String) (client : AuthenticatedClient)
    (json_body : ResourceCreate) (permit_session : Option String) : HttpRequest :=
  ⟨.post,
   client.base_url ++ ("/v2/schema/" ++ proj_id ++ "/" ++ env_id ++ "/resources"),
   [], some json_body.dict, client.get_headers,
   (match permit_session with
    | some s => client.get_cookies ++ [("permit_session", Value.str s)]
    | none => client.get_cookies),
   client.get_timeout⟩

/-- `_parse_response`: 200 parses `ResourceRead`, 422 parses
`HTTPValidationError`, anything else gives `None`. -/
def _parse_response (response : HttpResponse) : Option (HTTPValidationError ⊕ ResourceRead) :=
  if response.status_code = 200 then
    some (Sum.inr (ResourceRead.parse_obj response.json))
  else if response.status_code = 422 then
    some (Sum.inl (HTTPValidationError.parse_obj response.json))
  else none

/-- `_build_response`. -/
def _build_response (response : HttpResponse) : Response (HTTPValidationError ⊕ ResourceRead) :=
  ⟨response.status_code, response.content, response.headers, _parse_response response⟩

/-- `sync_detailed`. -/
def sync_detailed (proj_id env_id : String) (client : AuthenticatedClient)
    (json_body : ResourceCreate) (permit_session : Option String) (o : Oracle) :
    List HttpRequest × Response (HTTPValidationError ⊕ ResourceRead) :=
  let kwargs := _get_kwargs proj_id env_id client json_body permit_session
  let response := o kwargs
  ([kwargs], _build_response response)

/-- `sync`: `sync_detailed(...).parsed`. -/
def sync (proj_id env_id : String) (client : AuthenticatedClient)
    (json_body : ResourceCreate) (permit_session : Option String) (o : Oracle) :
    List HttpRequest × Option (HTTPValidationError ⊕ ResourceRead) :=
  let r := sync_detailed proj_id env_id client json_body permit_session o
  (r.1, r.2.parsed)

/-- `asyncio_detailed`. -/
def asyncio_detailed (proj_id env_id : String) (client : AuthenticatedClient)
    (json_body : ResourceCreate) (permit_session : Option String) (o : Oracle) :
    List HttpRequest × Response (HTTPValidationError ⊕ ResourceRead) :=
  let kwargs := _get_kwargs proj_id env_id client json_body permit_session
  let response := o kwargs
  ([kwargs], _build_response response)

/-- `asyncio`: `(await asyncio_detailed(...)).parsed`. -/
def asyncio (proj_id env_id : String) (client : AuthenticatedClient)
    (json_body : ResourceCreate) (permit_session : Option String) (o : Oracle) :
    List HttpRequest × Option (HTTPValidationError ⊕ ResourceRead) :=
  let r := asyncio_detailed proj_id env_id client json_body permit_session o
  (r.1, r.2.parsed)

end CreateResource

end Openapi

/-! ## Theorems -/

/-- C1: every public endpoint method of the three resource API classes is
a pre-call guard comparing the configured API-key level against the
endpoint's required `ApiKeyLevel`: on mismatch the call short-circuits to
`PermitContextError` with no HTTP request issued and the argument state
(in particular the dict handed to `UsersApi.sync`) untouched; on match the
wrapped method body runs. -/
theorem ensure_context_guards_every_endpoint
    (tapi : TenantsApi) (uapi : UsersApi) (eapi : EnvironmentsApi) (o : Oracle)
    (page per_page : Int) (tk uk pk ek u : String) (tnt : Option String)
    (tc : TenantCreate) (tu : TenantUpdate) (uc : UserCreate) (uu : UserUpdate)
    (d : PyDict) (ra : RoleAssignmentCreate) (rr : RoleAssignmentRemove)
    (ec : EnvironmentCreate) (eu : EnvironmentUpdate) (ecp : EnvironmentCopy) :
    (tapi.list o page per_page =
      if tapi.config.api_context.level = ApiKeyLevel.ENVIRONMENT_LEVEL_API_KEY
      then tapi.list_body o page per_page else contextFailure) ∧
    (tapi.list_tenant_users o tk page per_page =
      if tapi.config.api_context.level = ApiKeyLevel.ENVIRONMENT_LEVEL_API_KEY
      then tapi.list_tenant_users_body o tk page per_page else contextFailure) ∧
    (tapi.get o tk =
      if tapi.config.api_context.level = ApiKeyLevel.ENVIRONMENT_LEVEL_API_KEY
      then tapi.get_body o tk else contextFailure) ∧
    (tapi.get_by_key o tk =
      if tapi.config.api_context.level = ApiKeyLevel.ENVIRONMENT_LEVEL_API_KEY
      then tapi.get o tk else contextFailure) ∧
    (tapi.get_by_id o tk =
      if tapi.config.api_context.level = ApiKeyLevel.ENVIRONMENT_LEVEL_API_KEY
      then tapi.get o tk else contextFailure) ∧
    (tapi.create o tc =
      if tapi.config.api_context.level = ApiKeyLevel.ENVIRONMENT_LEVEL_API_KEY
      then tapi.create_body o tc else contextFailure) ∧
    (tapi.update o tk tu =
      if tapi.config.api_context.level = ApiKeyLevel.ENVIRONMENT_LEVEL_API_KEY
      then tapi.update_body o tk tu else contextFailure) ∧
    (tapi.delete o tk =
      if tapi.config.api_context.level = ApiKeyLevel.ENVIRONMENT_LEVEL_API_KEY
      then tapi.delete_body o tk else contextFailure) ∧
    (tapi.delete_tenant_user o tk uk =
      if tapi.config.api_context.level = ApiKeyLevel.ENVIRONMENT_LEVEL_API_KEY
      then tapi.delete_tenant_user_body o tk uk else contextFailure) ∧
    (uapi.list o page per_page =
      if uapi.config.api_context.level = ApiKeyLevel.ENVIRONMENT_LEVEL_API_KEY
      then uapi.list_body o page per_page else contextFailure) ∧
    (uapi.get o uk =
      if uapi.config.api_context.level = ApiKeyLevel.ENVIRONMENT_LEVEL_API_KEY
      then uapi.get_body o uk else contextFailure) ∧
    (uapi.get_by_key o uk =
      if uapi.config.api_context.level = ApiKeyLevel.ENVIRONMENT_LEVEL_API_KEY
      then uapi.get o uk else contextFailure) ∧
    (uapi.get_by_id o uk =
      if uapi.config.api_context.level = ApiKeyLevel.ENVIRONMENT_LEVEL_API_KEY
      then uapi.get o uk else contextFailure) ∧
    (uapi.create o uc =
      if uapi.config.api_context.level = ApiKeyLevel.ENVIRONMENT_LEVEL_API_KEY
      then uapi.create_body o uc else contextFailure) ∧
    (uapi.update o uk uu =
      if uapi.config.api_context.level = ApiKeyLevel.ENVIRONMENT_LEVEL_API_KEY
      then uapi.update_body o uk uu else contextFailure) ∧
    (uapi.sync_dict o d =
      if uapi.config.api_context.level = ApiKeyLevel.ENVIRONMENT_LEVEL_API_KEY
      then uapi.sync_dict_body o d else (contextFailure, d)) ∧
    (uapi.sync_model o uc =
      if uapi.config.api_context.level = ApiKeyLevel.ENVIRONMENT_LEVEL_API_KEY
      then uapi.sync_model_body o uc else contextFailure) ∧
    (uapi.delete o uk =
      if uapi.config.api_context.level = ApiKeyLevel.ENVIRONMENT_LEVEL_API_KEY
      then uapi.delete_body o uk else contextFailure) ∧
    (uapi.assign_role o ra =
      if uapi.config.api_context.level = ApiKeyLevel.ENVIRONMENT_LEVEL_API_KEY
      then uapi.assign_role_body o ra else contextFailure) ∧
    (uapi.unassign_role o rr =
      if uapi.config.api_context.level = ApiKeyLevel.ENVIRONMENT_LEVEL_API_KEY
      then uapi.unassign_role_body o rr else contextFailure) ∧
    (uapi.get_assigned_roles o u tnt page per_page =
      if uapi.config.api_context.level = ApiKeyLevel.ENVIRONMENT_LEVEL_API_KEY
      then uapi.get_assigned_roles_body o u tnt page per_page else contextFailure) ∧
    (eapi.list o pk page per_page =
      if eapi.config.api_context.level = ApiKeyLevel.PROJECT_LEVEL_API_KEY
      then eapi.list_body o pk page per_page else contextFailure) ∧
    (eapi.get o pk ek =
      if eapi.config.api_context.level = ApiKeyLevel.PROJECT_LEVEL_API_KEY
      then eapi.get_body o pk ek else contextFailure) ∧
    (eapi.get_by_key o pk ek =
      if eapi.config.api_context.level = ApiKeyLevel.PROJECT_LEVEL_API_KEY
      then eapi.get o pk ek else contextFailure) ∧
    (eapi.get_by_id o pk ek =
      if eapi.config.api_context.level = ApiKeyLevel.PROJECT_LEVEL_API_KEY
      then eapi.get o pk ek else contextFailure) ∧
    (eapi.get_stats o pk ek =
      if eapi.config.api_context.level = ApiKeyLevel.PROJECT_LEVEL_API_KEY
      then eapi.get_stats_body o pk ek else contextFailure) ∧
    (eapi.get_api_key o pk ek =
      if eapi.config.api_context.level = ApiKeyLevel.PROJECT_LEVEL_API_KEY
      then eapi.get_api_key_body o pk ek else contextFailure) ∧
    (eapi.create o pk ec =
      if eapi.config.api_context.level = ApiKeyLevel.PROJECT_LEVEL_API_KEY
      then eapi.create_body o pk ec else contextFailure) ∧
    (eapi.update o pk ek eu =
      if eapi.config.api_context.level = ApiKeyLevel.PROJECT_LEVEL_API_KEY
      then eapi.update_body o pk ek eu else contextFailure) ∧
    (eapi.copy o pk ek ecp =
      if eapi.config.api_context.level = ApiKeyLevel.PROJECT_LEVEL_API_KEY
      then eapi.copy_body o pk ek ecp else contextFailure) ∧
    (eapi.delete o pk ek =
      if eapi.config.api_context.level = ApiKeyLevel.PROJECT_LEVEL_API_KEY
      then eapi.delete_body o pk ek else contextFailure) ∧
    contextFailure.requests = [] := by
  refine ⟨rfl, rfl, rfl, rfl, rfl, rfl, rfl, rfl, rfl, rfl, rfl, rfl, rfl, rfl, rfl,
    rfl, rfl, rfl, rfl, rfl, rfl, rfl, rfl, rfl, rfl, rfl, rfl, rfl, rfl, rfl, rfl, rfl⟩

/-- The guard keeps the wrapped body's request count on a level match and
issues no request on a mismatch. -/
theorem ensure_context_requests_length (required : ApiKeyLevel) (cfg : PermitConfig)
    (b : Unit → CallResult) (h : (b ()).requests.length = 1) :
    (ensure_context required cfg b).requests.length =
      if cfg.api_context.level = required then 1 else 0 := by
  unfold ensure_context
  split
  · exact h
  · rfl

/-- A concrete environment-level api context. -/
def ctxEnv : ApiContext := ⟨.ENVIRONMENT_LEVEL_API_KEY, "proj", "env"⟩

/-- A concrete project-level api context. -/
def ctxProj : ApiContext := ⟨.PROJECT_LEVEL_API_KEY, "proj", "env"⟩

/-- A concrete config holding an environment-level key. -/
def cfgEnv : PermitConfig :=
  ⟨"secret", "http://localhost:7766", "https://api.permit.io",
   LoggerConfig.mk "info" "Permit" false, MultiTenancyConfig.mk "default" true, ctxEnv⟩

/-- A concrete config holding a project-level key. -/
def cfgProj : PermitConfig :=
  ⟨"secret", "http://localhost:7766", "https://api.permit.io",
   LoggerConfig.mk "info" "Permit" false, MultiTenancyConfig.mk "default" true, ctxProj⟩

/-- A concrete 200 response. -/
def respOk : HttpResponse := ⟨200, "{}", [], Value.obj []⟩

/-- A remote that answers every request with the concrete 200 response. -/
def oracleOk : Oracle := fun _ => respOk

/-- C2 counterexample: with the guard passing (environment-level key),
`UsersApi.sync` called on a dict without a "key" entry issues ZERO HTTP
requests (it raises `KeyError` first), refuting "exactly one HTTP request
is issued ... never zero requests when the guard passes". -/
theorem sync_keyless_dict_issues_zero_requests :
    (UsersApi.mk cfgEnv).config.api_context.level = ApiKeyLevel.ENVIRONMENT_LEVEL_API_KEY ∧
    ((UsersApi.mk cfgEnv).sync_dict oracleOk []).1.requests = [] ∧
    ((UsersApi.mk cfgEnv).sync_dict oracleOk []).1.outcome =
      Except.error (PermitError.keyError "required 'key' in input dictionary") :=
  ⟨rfl, rfl, rfl⟩

/-- C2 (amended): every endpoint issues exactly one HTTP request when its
guard passes and zero on a guard mismatch; the openapi endpoint functions
(no guard) always issue exactly one; the single exception is
`UsersApi.sync` given a dict whose "key" entry is missing or None, which
raises `KeyError` after the guard but before any request, issuing zero. -/
theorem every_endpoint_issues_one_request
    (tapi : TenantsApi) (uapi : UsersApi) (eapi : EnvironmentsApi)
    (o : Oracle) (page per_page : Int) (tk uk pk ek u oid : String)
    (tnt ps : Option String)
    (tc : TenantCreate) (tu : TenantUpdate) (uc : UserCreate) (uu : UserUpdate)
    (d : PyDict) (ra : RoleAssignmentCreate) (rr : RoleAssignmentRemove)
    (ec : EnvironmentCreate) (eu : EnvironmentUpdate) (ecp : EnvironmentCopy)
    (cl : Openapi.Client) (acl : Openapi.AuthenticatedClient) (rc : Openapi.ResourceCreate) :
    ((tapi.list o page per_page).requests.length =
      if tapi.config.api_context.level = ApiKeyLevel.ENVIRONMENT_LEVEL_API_KEY then 1 else 0) ∧
    ((tapi.list_tenant_users o tk page per_page).requests.length =
      if tapi.config.api_context.level = ApiKeyLevel.ENVIRONMENT_LEVEL_API_KEY then 1 else 0) ∧
    ((tapi.get o tk).requests.length =
      if tapi.config.api_context.level = ApiKeyLevel.ENVIRONMENT_LEVEL_API_KEY then 1 else 0) ∧
    ((tapi.get_by_key o tk).requests.length =
      if tapi.config.api_context.level = ApiKeyLevel.ENVIRONMENT_LEVEL_API_KEY then 1 else 0) ∧
    ((tapi.get_by_id o tk).requests.length =
      if tapi.config.api_context.level = ApiKeyLevel.ENVIRONMENT_LEVEL_API_KEY then 1 else 0) ∧
    ((tapi.create o tc).requests.length =
      if tapi.config.api_context.level = ApiKeyLevel.ENVIRONMENT_LEVEL_API_KEY then 1 else 0) ∧
    ((tapi.update o tk tu).requests.length =
      if tapi.config.api_context.level = ApiKeyLevel.ENVIRONMENT_LEVEL_API_KEY then 1 else 0) ∧
    ((tapi.delete o tk).requests.length =
      if tapi.config.api_context.level = ApiKeyLevel.ENVIRONMENT_LEVEL_API_KEY then 1 else 0) ∧
    ((tapi.delete_tenant_user o tk uk).requests.length =
      if tapi.config.api_context.level = ApiKeyLevel.ENVIRONMENT_LEVEL_API_KEY then 1 else 0) ∧
    ((uapi.list o page per_page).requests.length =
      if uapi.config.api_context.level = ApiKeyLevel.ENVIRONMENT_LEVEL_API_KEY then 1 else 0) ∧
    ((uapi.get o uk).requests.length =
      if uapi.config.api_context.level = ApiKeyLevel.ENVIRONMENT_LEVEL_API_KEY then 1 else 0) ∧
    ((uapi.get_by_key o uk).requests.length =
      if uapi.config.api_context.level = ApiKeyLevel.ENVIRONMENT_LEVEL_API_KEY then 1 else 0) ∧
    ((uapi.get_by_id o uk).requests.length =
      if uapi.config.api_context.level = ApiKeyLevel.ENVIRONMENT_LEVEL_API_KEY then 1 else 0) ∧
    ((uapi.create o uc).requests.length =
      if uapi.config.api_context.level = ApiKeyLevel.ENVIRONMENT_LEVEL_API_KEY then 1 else 0) ∧
    ((uapi.update o uk uu).requests.length =
      if uapi.config.api_context.level = ApiKeyLevel.ENVIRONMENT_LEVEL_API_KEY then 1 else 0) ∧
    ((uapi.sync_model o uc).requests.length =
      if uapi.config.api_context.level = ApiKeyLevel.ENVIRONMENT_LEVEL_API_KEY then 1 else 0) ∧
    (((uapi.sync_dict o d).1.requests.length : Nat) =
      if uapi.config.api_context.level = ApiKeyLevel.ENVIRONMENT_LEVEL_API_KEY then
        (match List.lookup "key" d with
         | none => 0
         | some v => if v.isNull then 0 else 1)
      else 0) ∧
    ((uapi.delete o uk).requests.length =
      if uapi.config.api_context.level = ApiKeyLevel.ENVIRONMENT_LEVEL_API_KEY then 1 else 0) ∧
    ((uapi.assign_role o ra).requests.length =
      if uapi.config.api_context.level = ApiKeyLevel.ENVIRONMENT_LEVEL_API_KEY then 1 else 0) ∧
    ((uapi.unassign_role o rr).requests.length =
      if uapi.config.api_context.level = ApiKeyLevel.ENVIRONMENT_LEVEL_API_KEY then 1 else 0) ∧
    ((uapi.get_assigned_roles o u tnt page per_page).requests.length =
      if uapi.config.api_context.level = ApiKeyLevel.ENVIRONMENT_LEVEL_API_KEY then 1 else 0) ∧
    ((eapi.list o pk page per_page).requests.length =
      if eapi.config.api_context.level = ApiKeyLevel.PROJECT_LEVEL_API_KEY then 1 else 0) ∧
    ((eapi.get o pk ek).requests.length =
      if eapi.config.api_context.level = ApiKeyLevel.PROJECT_LEVEL_API_KEY then 1 else 0) ∧
    ((eapi.get_by_key o pk ek).requests.length =
      if eapi.config.api_context.level = ApiKeyLevel.PROJECT_LEVEL_API_KEY then 1 else 0) ∧
    ((eapi.get_by_id o pk ek).requests.length =
      if eapi.config.api_context.level = ApiKeyLevel.PROJECT_LEVEL_API_KEY then 1 else 0) ∧
    ((eapi.get_stats o pk ek).requests.length =
      if eapi.config.api_context.level = ApiKeyLevel.PROJECT_LEVEL_API_KEY then 1 else 0) ∧
    ((eapi.get_api_key o pk ek).requests.length =
      if eapi.config.api_context.level = ApiKeyLevel.PROJECT_LEVEL_API_KEY then 1 else 0) ∧
    ((eapi.create o pk ec).requests.length =
      if eapi.config.api_context.level = ApiKeyLevel.PROJECT_LEVEL_API_KEY then 1 else 0) ∧
    ((eapi.update o pk ek eu).requests.length =
      if eapi.config.api_context.level = ApiKeyLevel.PROJECT_LEVEL_API_KEY then 1 else 0) ∧
    ((eapi.copy o pk ek ecp).requests.length =
      if eapi.config.api_context.level = ApiKeyLevel.PROJECT_LEVEL_API_KEY then 1 else 0) ∧
    ((eapi.delete o pk ek).requests.length =
      if eapi.config.api_context.level = ApiKeyLevel.PROJECT_LEVEL_API_KEY then 1 else 0) ∧
    ((Openapi.GetDataForUser.sync_detailed oid pk ek uk cl o).1.length = 1) ∧
    ((Openapi.GetDataForUser.sync oid pk ek uk cl o).1.length = 1) ∧
    ((Openapi.GetDataForUser.asyncio_detailed oid pk ek uk cl o).1.length = 1) ∧
    ((Openapi.GetDataForUser.asyncio oid pk ek uk cl o).1.length = 1) ∧
    ((Openapi.CreateResource.sync_detailed pk ek acl rc ps o).1.length = 1) ∧
    ((Openapi.CreateResource.sync pk ek acl rc ps o).1.length = 1) ∧
    ((Openapi.CreateResource.asyncio_detailed pk ek acl rc ps o).1.length = 1) ∧
    ((Openapi.CreateResource.asyncio pk ek acl rc ps o).1.length = 1) := by
  refine ⟨ensure_context_requests_length _ _ _ rfl,
    ensure_context_requests_length _ _ _ rfl,
    ensure_context_requests_length _ _ _ ?ga,
    ?gbk, ?gbi,
    ensure_context_requests_length _ _ _ rfl,
    ensure_context_requests_length _ _ _ rfl,
    ensure_context_requests_length _ _ _ rfl,
    ensure_context_requests_length _ _ _ rfl,
    ensure_context_requests_length _ _ _ rfl,
    ensure_context_requests_length _ _ _ rfl,
    ?ubk, ?ubi,
    ensure_context_requests_length _ _ _ rfl,
    ensure_context_requests_length _ _ _ rfl,
    ensure_context_requests_length _ _ _ rfl,
    ?sd,
    ensure_context_requests_length _ _ _ rfl,
    ensure_context_requests_length _ _ _ rfl,
    ensure_context_requests_length _ _ _ rfl,
    ensure_context_requests_length _ _ _ rfl,
    ensure_context_requests_length _ _ _ rfl,
    ensure_context_requests_length _ _ _ rfl,
    ?ebk, ?ebi,
    ensure_context_requests_length _ _ _ rfl,
    ensure_context_requests_length _ _ _ rfl,
    ensure_context_requests_length _ _ _ rfl,
    ensure_context_requests_length _ _ _ rfl,
    ensure_context_requests_length _ _ _ rfl,
    ensure_context_requests_length _ _ _ rfl,
    rfl, rfl, rfl, rfl, rfl, rfl, rfl, rfl⟩
  case ga => rfl
  case gbk =>
    by_cases h : tapi.config.api_context.level = ApiKeyLevel.ENVIRONMENT_LEVEL_API_KEY
    · simp only [TenantsApi.get_by_key, TenantsApi.get, ensure_context, if_pos h]; rfl
    · simp only [TenantsApi.get_by_key, ensure_context, if_neg h]; rfl
  case gbi =>
    by_cases h : tapi.config.api_context.level = ApiKeyLevel.ENVIRONMENT_LEVEL_API_KEY
    · simp only [TenantsApi.get_by_id, TenantsApi.get, ensure_context, if_pos h]; rfl
    · simp only [TenantsApi.get_by_id, ensure_context, if_neg h]; rfl
  case ubk =>
    by_cases h : uapi.config.api_context.level = ApiKeyLevel.ENVIRONMENT_LEVEL_API_KEY
    · simp only [UsersApi.get_by_key, UsersApi.get, ensure_context, if_pos h]; rfl
    · simp only [UsersApi.get_by_key, ensure_context, if_neg h]; rfl
  case ubi =>
    by_cases h : uapi.config.api_context.level = ApiKeyLevel.ENVIRONMENT_LEVEL_API_KEY
    · simp only [UsersApi.get_by_id, UsersApi.get, ensure_context, if_pos h]; rfl
    · simp only [UsersApi.get_by_id, ensure_context, if_neg h]; rfl
  case ebk =>
    by_cases h : eapi.config.api_context.level = ApiKeyLevel.PROJECT_LEVEL_API_KEY
    · simp only [EnvironmentsApi.get_by_key, EnvironmentsApi.get, ensure_context, if_pos h]; rfl
    · simp only [EnvironmentsApi.get_by_key, ensure_context, if_neg h]; rfl
  case ebi =>
    by_cases h : eapi.config.api_context.level = ApiKeyLevel.PROJECT_LEVEL_API_KEY
    · simp only [EnvironmentsApi.get_by_id, EnvironmentsApi.get, ensure_context, if_pos h]; rfl
    · simp only [EnvironmentsApi.get_by_id, ensure_context, if_neg h]; rfl
  case sd =>
    unfold UsersApi.sync_dict
    split
    · simp only [UsersApi.sync_dict_body, PyDict.pop]
      cases hv : List.lookup "key" d with
      | none => rfl
      | some v => cases hb : v.isNull <;> simp [hb, SimpleHttpClient.put]
    · rfl

/-- A concrete 422 response. -/
def resp422 : HttpResponse := ⟨422, "validation error", [("x", "y")], Value.arr []⟩

/-- A concrete 500 response. -/
def resp500 : HttpResponse := ⟨500, "server error", [], Value.null⟩

/-- C3: in both openapi endpoint modules, `_parse_response` returns the
success model parsed from the response JSON on status 200, an
`HTTPValidationError` parsed from the response JSON on status 422, and
`None` on every other status; `_build_response` wraps that parsed value
with the response's status code, content and headers unchanged. -/
theorem parse_and_build_response_dispatch :
    (∀ resp : HttpResponse, resp.status_code = 200 →
      Openapi.GetDataForUser._parse_response resp =
        some (Sum.inr (Openapi.UserData.parse_obj resp.json))) ∧
    (∀ resp : HttpResponse, resp.status_code = 422 →
      Openapi.GetDataForUser._parse_response resp =
        some (Sum.inl (Openapi.HTTPValidationError.parse_obj resp.json))) ∧
    (∀ resp : HttpResponse, resp.status_code ≠ 200 → resp.status_code ≠ 422 →
      Openapi.GetDataForUser._parse_response resp = none) ∧
    (∀ resp : HttpResponse,
      (Openapi.GetDataForUser._build_response resp).status_code = resp.status_code ∧
      (Openapi.GetDataForUser._build_response resp).content = resp.content ∧
      (Openapi.GetDataForUser._build_response resp).headers = resp.headers ∧
      (Openapi.GetDataForUser._build_response resp).parsed =
        Openapi.GetDataForUser._parse_response resp) ∧
    (∀ resp : HttpResponse, resp.status_code = 200 →
      Openapi.CreateResource._parse_response resp =
        some (Sum.inr (Openapi.ResourceRead.parse_obj resp.json))) ∧
    (∀ resp : HttpResponse, resp.status_code = 422 →
      Openapi.CreateResource._parse_response resp =
        some (Sum.inl (Openapi.HTTPValidationError.parse_obj resp.json))) ∧
    (∀ resp : HttpResponse, resp.status_code ≠ 200 → resp.status_code ≠ 422 →
      Openapi.CreateResource._parse_response resp = none) ∧
    (∀ resp : HttpResponse,
      (Openapi.CreateResource._build_response resp).status_code = resp.status_code ∧
      (Openapi.CreateResource._build_response resp).content = resp.content ∧
      (Openapi.CreateResource._build_response resp).headers = resp.headers ∧
      (Openapi.CreateResource._build_response resp).parsed =
        Openapi.CreateResource._parse_response resp) := by
  refine ⟨?_, ?_, ?_, fun resp => ⟨rfl, rfl, rfl, rfl⟩, ?_, ?_, ?_,
    fun resp => ⟨rfl, rfl, rfl, rfl⟩⟩
  · intro resp h
    simp [Openapi.GetDataForUser._parse_response, h]
  · intro resp h
    simp [Openapi.GetDataForUser._parse_response, h]
  · intro resp h1 h2
    simp [Openapi.GetDataForUser._parse_response, h1, h2]
  · intro resp h
    simp [Openapi.CreateResource._parse_response, h]
  · intro resp h
    simp [Openapi.CreateResource._parse_response, h]
  · intro resp h1 h2
    simp [Openapi.CreateResource._parse_response, h1, h2]

/-- C3 witness: the dispatch evaluated at concrete 200, 422 and 500
responses. -/
theorem parse_and_build_response_dispatch_witness :
    Openapi.GetDataForUser._parse_response respOk =
      some (Sum.inr (Openapi.UserData.parse_obj respOk.json)) ∧
    Openapi.GetDataForUser._parse_response resp422 =
      some (Sum.inl (Openapi.HTTPValidationError.parse_obj resp422.json)) ∧
    Openapi.GetDataForUser._parse_response resp500 = none ∧
    Openapi.CreateResource._parse_response respOk =
      some (Sum.inr (Openapi.ResourceRead.parse_obj respOk.json)) ∧
    Openapi.CreateResource._parse_response resp422 =
      some (Sum.inl (Openapi.HTTPValidationError.parse_obj resp422.json)) ∧
    Openapi.CreateResource._parse_response resp500 = none :=
  ⟨parse_and_build_response_dispatch.1 respOk rfl,
   parse_and_build_response_dispatch.2.1 resp422 rfl,
   parse_and_build_response_dispatch.2.2.1 resp500 (by decide) (by decide),
   parse_and_build_response_dispatch.2.2.2.2.1 respOk rfl,
   parse_and_build_response_dispatch.2.2.2.2.2.1 resp422 rfl,
   parse_and_build_response_dispatch.2.2.2.2.2.2.1 resp500 (by decide) (by decide)⟩

/-- C4: every list-style operation carries pagination solely as the
`page`/`per_page` query parameters built from its page and per_page
arguments, and the parameters default to page 1 and per_page 100 when the
caller omits them. -/
theorem pagination_is_page_and_per_page
    (tapi : TenantsApi) (uapi : UsersApi) (eapi : EnvironmentsApi)
    (o : Oracle) (page per_page : Int) (tk pk u : String) (tnt : Option String) :
    (pagination_params page per_page =
      [("page", Value.num page), ("per_page", Value.num per_page)]) ∧
    (tapi.list o = tapi.list o 1 100) ∧
    (tapi.list_tenant_users o tk = tapi.list_tenant_users o tk 1 100) ∧
    (uapi.list o = uapi.list o 1 100) ∧
    (uapi.get_assigned_roles o u = uapi.get_assigned_roles o u none 1 100) ∧
    (eapi.list o pk = eapi.list o pk 1 100) ∧
    ((tapi.list_body o page per_page).requests.map (fun r => r.params) =
      [pagination_params page per_page]) ∧
    ((tapi.list_tenant_users_body o tk page per_page).requests.map (fun r => r.params) =
      [pagination_params page per_page]) ∧
    ((uapi.list_body o page per_page).requests.map (fun r => r.params) =
      [pagination_params page per_page]) ∧
    ((eapi.list_body o pk page per_page).requests.map (fun r => r.params) =
      [pagination_params page per_page]) ∧
    ((uapi.get_assigned_roles_body o u tnt page per_page).requests.map
        (fun r => r.params.filter (fun p => p.1 == "page" || p.1 == "per_page")) =
      [pagination_params page per_page]) := by
  refine ⟨rfl, rfl, rfl, rfl, rfl, rfl, rfl, rfl, rfl, rfl, ?_⟩
  cases tnt <;> rfl

/-- The URLs of the requests a call issued. -/
def urlsOf (r : CallResult) : List String := r.requests.map fun q => q.url

/-- C5 counterexample: `EnvironmentsApi.get_api_key` sends its request to
`{api_url}/v2/api-key/{project_key}/{environment_key}`, which is NOT a URL
under the module's claimed `/v2/projects/{project_key}/envs` resource base
path, refuting "every endpoint method sends its HTTP request to a URL
under that module's one resource base path". -/
theorem get_api_key_escapes_envs_base_path :
    urlsOf ((EnvironmentsApi.init cfgProj).get_api_key_body oracleOk "p" "e") =
      ["https://api.permit.io/v2/api-key/p/e"] ∧
    ¬ ∃ s : String, "https://api.permit.io/v2/api-key/p/e" =
        "https://api.permit.io/v2/projects/p/envs" ++ s := by
  refine ⟨rfl, ?_⟩
  rintro ⟨s, h⟩
  have hl := congrArg String.length h
  rw [String.length_append] at hl
  have h1 : ("https://api.permit.io/v2/api-key/p/e").length = 36 := rfl
  have h2 : ("https://api.permit.io/v2/projects/p/envs").length = 40 := rfl
  rw [h1, h2] at hl
  omega

/-- C5 (amended): each resource module is a CRUD template over one REST
base path, with two exceptions. Every `TenantsApi` method extends the
tenants client base `{api_url}/v2/facts/{proj}/{env}/tenants` fixed at
construction; every `UsersApi` method except `get_assigned_roles` extends
the users base `{api_url}/v2/facts/{proj}/{env}/users`, while
`get_assigned_roles` goes to the separate
`{api_url}/v2/facts/{proj}/{env}/role_assignments` base; every
`EnvironmentsApi` method except `get_api_key` targets a URL under
`{api_url}/v2/projects/{project_key}/envs`, while `get_api_key` targets
`{api_url}/v2/api-key/{project_key}/{environment_key}`. -/
theorem resource_modules_are_crud_over_base_paths
    (cfg : PermitConfig) (tapi : TenantsApi) (uapi : UsersApi) (eapi : EnvironmentsApi)
    (o : Oracle) (page per_page : Int) (tk uk pk ek u : String) (tnt : Option String)
    (d : PyDict) (tc : TenantCreate) (tu : TenantUpdate) (uc : UserCreate) (uu : UserUpdate)
    (ra : RoleAssignmentCreate) (rr : RoleAssignmentRemove)
    (ec : EnvironmentCreate) (eu : EnvironmentUpdate) (ecp : EnvironmentCopy) :
    ((TenantsApi.init cfg).tenants.base_url =
      cfg.api_url ++ ("/v2/facts/" ++ cfg.api_context.project ++ "/" ++ cfg.api_context.environment ++ "/tenants")) ∧
    (∃ s, urlsOf (tapi.list_body o page per_page) = [tapi.tenants.base_url ++ s]) ∧
    (∃ s, urlsOf (tapi.list_tenant_users_body o tk page per_page) = [tapi.tenants.base_url ++ s]) ∧
    (∃ s, urlsOf (tapi.get_body o tk) = [tapi.tenants.base_url ++ s]) ∧
    (∃ s, urlsOf (tapi.create_body o tc) = [tapi.tenants.base_url ++ s]) ∧
    (∃ s, urlsOf (tapi.update_body o tk tu) = [tapi.tenants.base_url ++ s]) ∧
    (∃ s, urlsOf (tapi.delete_body o tk) = [tapi.tenants.base_url ++ s]) ∧
    (∃ s, urlsOf (tapi.delete_tenant_user_body o tk uk) = [tapi.tenants.base_url ++ s]) ∧
    (uapi.users.base_url =
      uapi.config.api_url ++ ("/v2/facts/" ++ uapi.config.api_context.project ++ "/" ++ uapi.config.api_context.environment ++ "/users")) ∧
    (uapi.role_assignments.base_url =
      uapi.config.api_url ++ ("/v2/facts/" ++ uapi.config.api_context.project ++ "/" ++ uapi.config.api_context.environment ++ "/role_assignments")) ∧
    (∃ s, urlsOf (uapi.list_body o page per_page) = [uapi.users.base_url ++ s]) ∧
    (∃ s, urlsOf (uapi.get_body o uk) = [uapi.users.base_url ++ s]) ∧
    (∃ s, urlsOf (uapi.create_body o uc) = [uapi.users.base_url ++ s]) ∧
    (∃ s, urlsOf (uapi.update_body o uk uu) = [uapi.users.base_url ++ s]) ∧
    (∃ s, urlsOf (uapi.sync_model_body o uc) = [uapi.users.base_url ++ s]) ∧
    (urlsOf (uapi.sync_dict_body o d).1 =
      (match List.lookup "key" d with
       | none => []
       | some v =>
          if v.isNull then []
          else [uapi.users.base_url ++ ("/" ++ v.format)])) ∧
    (∃ s, urlsOf (uapi.delete_body o uk) = [uapi.users.base_url ++ s]) ∧
    (∃ s, urlsOf (uapi.assign_role_body o ra) = [uapi.users.base_url ++ s]) ∧
    (∃ s, urlsOf (uapi.unassign_role_body o rr) = [uapi.users.base_url ++ s]) ∧
    (urlsOf (uapi.get_assigned_roles_body o u tnt page per_page) =
      [uapi.role_assignments.base_url ++ ""]) ∧
    ((EnvironmentsApi.init cfg).environments.base_url = cfg.api_url ++ "") ∧
    (urlsOf (eapi.list_body o pk page per_page) =
      [eapi.environments.base_url ++ ("/v2/projects/" ++ pk ++ "/envs")]) ∧
    (∃ s, urlsOf (eapi.get_body o pk ek) =
      [eapi.environments.base_url ++ (("/v2/projects/" ++ pk ++ "/envs") ++ s)]) ∧
    (∃ s, urlsOf (eapi.get_stats_body o pk ek) =
      [eapi.environments.base_url ++ (("/v2/projects/" ++ pk ++ "/envs") ++ s)]) ∧
    (urlsOf (eapi.create_body o pk ec) =
      [eapi.environments.base_url ++ ("/v2/projects/" ++ pk ++ "/envs")]) ∧
    (∃ s, urlsOf (eapi.update_body o pk ek eu) =
      [eapi.environments.base_url ++ (("/v2/projects/" ++ pk ++ "/envs") ++ s)]) ∧
    (∃ s, urlsOf (eapi.copy_body o pk ek ecp) =
      [eapi.environments.base_url ++ (("/v2/projects/" ++ pk ++ "/envs") ++ s)]) ∧
    (∃ s, urlsOf (eapi.delete_body o pk ek) =
      [eapi.environments.base_url ++ (("/v2/projects/" ++ pk ++ "/envs") ++ s)]) ∧
    (urlsOf (eapi.get_api_key_body o pk ek) =
      [eapi.environments.base_url ++ ("/v2/api-key/" ++ pk ++ "/" ++ ek)]) := by
  refine ⟨rfl, ⟨"", rfl⟩, ⟨"/" ++ tk ++ "/users", rfl⟩, ⟨"/" ++ tk, rfl⟩, ⟨"", rfl⟩,
    ⟨"/" ++ tk, rfl⟩, ⟨"/" ++ tk, rfl⟩, ⟨"/" ++ tk ++ "/users/" ++ uk, rfl⟩,
    rfl, rfl, ⟨"", rfl⟩, ⟨"/" ++ uk, rfl⟩, ⟨"", rfl⟩, ⟨"/" ++ uk, rfl⟩,
    ⟨"/" ++ uc.key, rfl⟩, ?_, ⟨"/" ++ uk, rfl⟩, ⟨"/" ++ ra.user ++ "/roles", rfl⟩,
    ⟨"/" ++ rr.user ++ "/roles", rfl⟩, rfl, rfl, rfl, ⟨"/" ++ ek, rfl⟩,
    ⟨"/" ++ ek ++ "/stats", rfl⟩, rfl, ⟨"/" ++ ek, rfl⟩, ⟨"/" ++ ek ++ "/copy", rfl⟩,
    ⟨"/" ++ ek, rfl⟩, rfl⟩
  simp only [UsersApi.sync_dict_body, PyDict.pop]
  cases hv : List.lookup "key" d with
  | none => rfl
  | some v => cases v <;> rfl

/-- The response a `get` call returns depends only on the remote's answer
to the one request it issued. -/
theorem SimpleHttpClient.get_ni (c : SimpleHttpClient) (path : String)
    (params : List (String × Value)) (o₁ o₂ : Oracle)
    (h : ∀ r ∈ (c.get path params o₁).requests, o₁ r = o₂ r) :
    c.get path params o₁ = c.get path params o₂ := by
  have hr := h ⟨.get, c.base_url ++ path, params, none, [], [], 0⟩ (List.mem_singleton_self _)
  simp only [SimpleHttpClient.get]
  rw [hr]

/-- As `get_ni`, for `post`. -/
theorem SimpleHttpClient.post_ni (c : SimpleHttpClient) (path : String)
    (body : Option Value) (o₁ o₂ : Oracle)
    (h : ∀ r ∈ (c.post path body o₁).requests, o₁ r = o₂ r) :
    c.post path body o₁ = c.post path body o₂ := by
  have hr := h ⟨.post, c.base_url ++ path, [], body, [], [], 0⟩ (List.mem_singleton_self _)
  simp only [SimpleHttpClient.post]
  rw [hr]

/-- As `get_ni`, for `put`. -/
theorem SimpleHttpClient.put_ni (c : SimpleHttpClient) (path : String)
    (body : Option Value) (o₁ o₂ : Oracle)
    (h : ∀ r ∈ (c.put path body o₁).requests, o₁ r = o₂ r) :
    c.put path body o₁ = c.put path body o₂ := by
  have hr := h ⟨.put, c.base_url ++ path, [], body, [], [], 0⟩ (List.mem_singleton_self _)
  simp only [SimpleHttpClient.put]
  rw [hr]

/-- As `get_ni`, for `patch`. -/
theorem SimpleHttpClient.patch_ni (c : SimpleHttpClient) (path : String)
    (body : Option Value) (o₁ o₂ : Oracle)
    (h : ∀ r ∈ (c.patch path body o₁).requests, o₁ r = o₂ r) :
    c.patch path body o₁ = c.patch path body o₂ := by
  have hr := h ⟨.patch, c.base_url ++ path, [], body, [], [], 0⟩ (List.mem_singleton_self _)
  simp only [SimpleHttpClient.patch]
  rw [hr]

/-- As `get_ni`, for `delete`. -/
theorem SimpleHttpClient.delete_ni (c : SimpleHttpClient) (path : String)
    (body : Option Value) (o₁ o₂ : Oracle)
    (h : ∀ r ∈ (c.delete path body o₁).requests, o₁ r = o₂ r) :
    c.delete path body o₁ = c.delete path body o₂ := by
  have hr := h ⟨.delete, c.base_url ++ path, [], body, [], [], 0⟩ (List.mem_singleton_self _)
  simp only [SimpleHttpClient.delete]
  rw [hr]

/-- The guard preserves response-only dependence of the wrapped body. -/
theorem ensure_context_ni (required : ApiKeyLevel) (cfg : PermitConfig)
    (f : Oracle → CallResult) (o₁ o₂ : Oracle)
    (hf : (∀ r ∈ (f o₁).requests, o₁ r = o₂ r) → f o₁ = f o₂)
    (h : ∀ r ∈ (ensure_context required cfg fun _ => f o₁).requests, o₁ r = o₂ r) :
    (ensure_context required cfg fun _ => f o₁) =
      (ensure_context required cfg fun _ => f o₂) := by
  by_cases hc : cfg.api_context.level = required
  · simp only [ensure_context, if_pos hc] at h ⊢
    exact hf h
  · simp only [ensure_context, if_neg hc]

/-- `sync_dict_body` depends only on the dict and the remote's answer to
the one request it may issue. -/
theorem sync_dict_body_ni (api : UsersApi) (d : PyDict) (o₁ o₂ : Oracle)
    (h : ∀ r ∈ (api.sync_dict_body o₁ d).1.requests, o₁ r = o₂ r) :
    api.sync_dict_body o₁ d = api.sync_dict_body o₂ d := by
  simp only [UsersApi.sync_dict_body, PyDict.pop] at h ⊢
  cases hv : List.lookup "key" d with
  | none => rfl
  | some v =>
    simp only [hv] at h ⊢
    cases hb : v.isNull with
    | true => simp [hb]
    | false =>
        simp only [hb, Bool.false_eq_true, if_false] at h ⊢
        rw [SimpleHttpClient.put_ni _ _ _ o₁ o₂ (fun r hr => h r hr)]

/-- C6: no endpoint performs local decision-making: with the same
arguments and configuration, any two runs that get the same HTTP response
for the requests actually issued return identical values — each endpoint
is a deterministic function of its inputs and the remote response alone. -/
theorem endpoint_results_depend_only_on_remote_response
    (tapi : TenantsApi) (uapi : UsersApi) (eapi : EnvironmentsApi)
    (o₁ o₂ : Oracle) (page per_page : Int) (tk uk pk ek u oid : String)
    (tnt ps : Option String)
    (tc : TenantCreate) (tu : TenantUpdate) (uc : UserCreate) (uu : UserUpdate)
    (d : PyDict) (ra : RoleAssignmentCreate) (rr : RoleAssignmentRemove)
    (ec : EnvironmentCreate) (eu : EnvironmentUpdate) (ecp : EnvironmentCopy)
    (cl : Openapi.Client) (acl : Openapi.AuthenticatedClient) (rc : Openapi.ResourceCreate) :
    ((∀ r ∈ (tapi.list o₁ page per_page).requests, o₁ r = o₂ r) →
      tapi.list o₁ page per_page = tapi.list o₂ page per_page) ∧
    ((∀ r ∈ (tapi.list_tenant_users o₁ tk page per_page).requests, o₁ r = o₂ r) →
      tapi.list_tenant_users o₁ tk page per_page = tapi.list_tenant_users o₂ tk page per_page) ∧
    ((∀ r ∈ (tapi.get o₁ tk).requests, o₁ r = o₂ r) →
      tapi.get o₁ tk = tapi.get o₂ tk) ∧
    ((∀ r ∈ (tapi.get_by_key o₁ tk).requests, o₁ r = o₂ r) →
      tapi.get_by_key o₁ tk = tapi.get_by_key o₂ tk) ∧
    ((∀ r ∈ (tapi.get_by_id o₁ tk).requests, o₁ r = o₂ r) →
      tapi.get_by_id o₁ tk = tapi.get_by_id o₂ tk) ∧
    ((∀ r ∈ (tapi.create o₁ tc).requests, o₁ r = o₂ r) →
      tapi.create o₁ tc = tapi.create o₂ tc) ∧
    ((∀ r ∈ (tapi.update o₁ tk tu).requests, o₁ r = o₂ r) →
      tapi.update o₁ tk tu = tapi.update o₂ tk tu) ∧
    ((∀ r ∈ (tapi.delete o₁ tk).requests, o₁ r = o₂ r) →
      tapi.delete o₁ tk = tapi.delete o₂ tk) ∧
    ((∀ r ∈ (tapi.delete_tenant_user o₁ tk uk).requests, o₁ r = o₂ r) →
      tapi.delete_tenant_user o₁ tk uk = tapi.delete_tenant_user o₂ tk uk) ∧
    ((∀ r ∈ (uapi.list o₁ page per_page).requests, o₁ r = o₂ r) →
      uapi.list o₁ page per_page = uapi.list o₂ page per_page) ∧
    ((∀ r ∈ (uapi.get o₁ uk).requests, o₁ r = o₂ r) →
      uapi.get o₁ uk = uapi.get o₂ uk) ∧
    ((∀ r ∈ (uapi.get_by_key o₁ uk).requests, o₁ r = o₂ r) →
      uapi.get_by_key o₁ uk = uapi.get_by_key o₂ uk) ∧
    ((∀ r ∈ (uapi.get_by_id o₁ uk).requests, o₁ r = o₂ r) →
      uapi.get_by_id o₁ uk = uapi.get_by_id o₂ uk) ∧
    ((∀ r ∈ (uapi.create o₁ uc).requests, o₁ r = o₂ r) →
      uapi.create o₁ uc = uapi.create o₂ uc) ∧
    ((∀ r ∈ (uapi.update o₁ uk uu).requests, o₁ r = o₂ r) →
      uapi.update o₁ uk uu = uapi.update o₂ uk uu) ∧
    ((∀ r ∈ (uapi.sync_model o₁ uc).requests, o₁ r = o₂ r) →
      uapi.sync_model o₁ uc = uapi.sync_model o₂ uc) ∧
    ((∀ r ∈ (uapi.sync_dict o₁ d).1.requests, o₁ r = o₂ r) →
      uapi.sync_dict o₁ d = uapi.sync_dict o₂ d) ∧
    ((∀ r ∈ (uapi.delete o₁ uk).requests, o₁ r = o₂ r) →
      uapi.delete o₁ uk = uapi.delete o₂ uk) ∧
    ((∀ r ∈ (uapi.assign_role o₁ ra).requests, o₁ r = o₂ r) →
      uapi.assign_role o₁ ra = uapi.assign_role o₂ ra) ∧
    ((∀ r ∈ (uapi.unassign_role o₁ rr).requests, o₁ r = o₂ r) →
      uapi.unassign_role o₁ rr = uapi.unassign_role o₂ rr) ∧
    ((∀ r ∈ (uapi.get_assigned_roles o₁ u tnt page per_page).requests, o₁ r = o₂ r) →
      uapi.get_assigned_roles o₁ u tnt page per_page = uapi.get_assigned_roles o₂ u tnt page per_page) ∧
    ((∀ r ∈ (eapi.list o₁ pk page per_page).requests, o₁ r = o₂ r) →
      eapi.list o₁ pk page per_page = eapi.list o₂ pk page per_page) ∧
    ((∀ r ∈ (eapi.get o₁ pk ek).requests, o₁ r = o₂ r) →
      eapi.get o₁ pk ek = eapi.get o₂ pk ek) ∧
    ((∀ r ∈ (eapi.get_by_key o₁ pk ek).requests, o₁ r = o₂ r) →
      eapi.get_by_key o₁ pk ek = eapi.get_by_key o₂ pk ek) ∧
    ((∀ r ∈ (eapi.get_by_id o₁ pk ek).requests, o₁ r = o₂ r) →
      eapi.get_by_id o₁ pk ek = eapi.get_by_id o₂ pk ek) ∧
    ((∀ r ∈ (eapi.get_stats o₁ pk ek).requests, o₁ r = o₂ r) →
      eapi.get_stats o₁ pk ek = eapi.get_stats o₂ pk ek) ∧
    ((∀ r ∈ (eapi.get_api_key o₁ pk ek).requests, o₁ r = o₂ r) →
      eapi.get_api_key o₁ pk ek = eapi.get_api_key o₂ pk ek) ∧
    ((∀ r ∈ (eapi.create o₁ pk ec).requests, o₁ r = o₂ r) →
      eapi.create o₁ pk ec = eapi.create o₂ pk ec) ∧
    ((∀ r ∈ (eapi.update o₁ pk ek eu).requests, o₁ r = o₂ r) →
      eapi.update o₁ pk ek eu = eapi.update o₂ pk ek eu) ∧
    ((∀ r ∈ (eapi.copy o₁ pk ek ecp).requests, o₁ r = o₂ r) →
      eapi.copy o₁ pk ek ecp = eapi.copy o₂ pk ek ecp) ∧
    ((∀ r ∈ (eapi.delete o₁ pk ek).requests, o₁ r = o₂ r) →
      eapi.delete o₁ pk ek = eapi.delete o₂ pk ek) ∧
    ((∀ r ∈ (Openapi.GetDataForUser.sync_detailed oid pk ek uk cl o₁).1, o₁ r = o₂ r) →
      Openapi.GetDataForUser.sync_detailed oid pk ek uk cl o₁ =
        Openapi.GetDataForUser.sync_detailed oid pk ek uk cl o₂) ∧
    ((∀ r ∈ (Openapi.GetDataForUser.sync oid pk ek uk cl o₁).1, o₁ r = o₂ r) →
      Openapi.GetDataForUser.sync oid pk ek uk cl o₁ =
        Openapi.GetDataForUser.sync oid pk ek uk cl o₂) ∧
    ((∀ r ∈ (Openapi.GetDataForUser.asyncio_detailed oid pk ek uk cl o₁).1, o₁ r = o₂ r) →
      Openapi.GetDataForUser.asyncio_detailed oid pk ek uk cl o₁ =
        Openapi.GetDataForUser.asyncio_detailed oid pk ek uk cl o₂) ∧
    ((∀ r ∈ (Openapi.GetDataForUser.asyncio oid pk ek uk cl o₁).1, o₁ r = o₂ r) →
      Openapi.GetDataForUser.asyncio oid pk ek uk cl o₁ =
        Openapi.GetDataForUser.asyncio oid pk ek uk cl o₂) ∧
    ((∀ r ∈ (Openapi.CreateResource.sync_detailed pk ek acl rc ps o₁).1, o₁ r = o₂ r) →
      Openapi.CreateResource.sync_detailed pk ek acl rc ps o₁ =
        Openapi.CreateResource.sync_detailed pk ek acl rc ps o₂) ∧
    ((∀ r ∈ (Openapi.CreateResource.sync pk ek acl rc ps o₁).1, o₁ r = o₂ r) →
      Openapi.CreateResource.sync pk ek acl rc ps o₁ =
        Openapi.CreateResource.sync pk ek acl rc ps o₂) ∧
    ((∀ r ∈ (Openapi.CreateResource.asyncio_detailed pk ek acl rc ps o₁).1, o₁ r = o₂ r) →
      Openapi.CreateResource.asyncio_detailed pk ek acl rc ps o₁ =
        Openapi.CreateResource.asyncio_detailed pk ek acl rc ps o₂) ∧
    ((∀ r ∈ (Openapi.CreateResource.asyncio pk ek acl rc ps o₁).1, o₁ r = o₂ r) →
      Openapi.CreateResource.asyncio pk ek acl rc ps o₁ =
        Openapi.CreateResource.asyncio pk ek acl rc ps o₂) :=
  ⟨fun h => ensure_context_ni _ _ (fun oo => tapi.list_body oo page per_page) o₁ o₂
      (fun hh => SimpleHttpClient.get_ni tapi.tenants "" (pagination_params page per_page) o₁ o₂ hh) h,
   fun h => ensure_context_ni _ _ (fun oo => tapi.list_tenant_users_body oo tk page per_page) o₁ o₂
      (fun hh => SimpleHttpClient.get_ni tapi.tenants ("/" ++ tk ++ "/users") (pagination_params page per_page) o₁ o₂ hh) h,
   fun h => ensure_context_ni _ _ (fun oo => tapi.get_body oo tk) o₁ o₂
      (fun hh => SimpleHttpClient.get_ni tapi.tenants ("/" ++ tk) [] o₁ o₂ hh) h,
   fun h => ensure_context_ni _ _ (fun oo => tapi.get oo tk) o₁ o₂
      (fun hh => ensure_context_ni _ _ (fun oo => tapi.get_body oo tk) o₁ o₂
        (fun h3 => SimpleHttpClient.get_ni tapi.tenants ("/" ++ tk) [] o₁ o₂ h3) hh) h,
   fun h => ensure_context_ni _ _ (fun oo => tapi.get oo tk) o₁ o₂
      (fun hh => ensure_context_ni _ _ (fun oo => tapi.get_body oo tk) o₁ o₂
        (fun h3 => SimpleHttpClient.get_ni tapi.tenants ("/" ++ tk) [] o₁ o₂ h3) hh) h,
   fun h => ensure_context_ni _ _ (fun oo => tapi.create_body oo tc) o₁ o₂
      (fun hh => SimpleHttpClient.post_ni tapi.tenants "" (some tc.dict) o₁ o₂ hh) h,
   fun h => ensure_context_ni _ _ (fun oo => tapi.update_body oo tk tu) o₁ o₂
      (fun hh => SimpleHttpClient.patch_ni tapi.tenants ("/" ++ tk) (some tu.dict) o₁ o₂ hh) h,
   fun h => ensure_context_ni _ _ (fun oo => tapi.delete_body oo tk) o₁ o₂
      (fun hh => SimpleHttpClient.delete_ni tapi.tenants ("/" ++ tk) none o₁ o₂ hh) h,
   fun h => ensure_context_ni _ _ (fun oo => tapi.delete_tenant_user_body oo tk uk) o₁ o₂
      (fun hh => SimpleHttpClient.delete_ni tapi.tenants ("/" ++ tk ++ "/users/" ++ uk) none o₁ o₂ hh) h,
   fun h => ensure_context_ni _ _ (fun oo => uapi.list_body oo page per_page) o₁ o₂
      (fun hh => SimpleHttpClient.get_ni uapi.users "" (pagination_params page per_page) o₁ o₂ hh) h,
   fun h => ensure_context_ni _ _ (fun oo => uapi.get_body oo uk) o₁ o₂
      (fun hh => SimpleHttpClient.get_ni uapi.users ("/" ++ uk) [] o₁ o₂ hh) h,
   fun h => ensure_context_ni _ _ (fun oo => uapi.get oo uk) o₁ o₂
      (fun hh => ensure_context_ni _ _ (fun oo => uapi.get_body oo uk) o₁ o₂
        (fun h3 => SimpleHttpClient.get_ni uapi.users ("/" ++ uk) [] o₁ o₂ h3) hh) h,
   fun h => ensure_context_ni _ _ (fun oo => uapi.get oo uk) o₁ o₂
      (fun hh => ensure_context_ni _ _ (fun oo => uapi.get_body oo uk) o₁ o₂
        (fun h3 => SimpleHttpClient.get_ni uapi.users ("/" ++ uk) [] o₁ o₂ h3) hh) h,
   fun h => ensure_context_ni _ _ (fun oo => uapi.create_body oo uc) o₁ o₂
      (fun hh => SimpleHttpClient.post_ni uapi.users "" (some uc.dict) o₁ o₂ hh) h,
   fun h => ensure_context_ni _ _ (fun oo => uapi.update_body oo uk uu) o₁ o₂
      (fun hh => SimpleHttpClient.patch_ni uapi.users ("/" ++ uk) (some uu.dict) o₁ o₂ hh) h,
   fun h => ensure_context_ni _ _ (fun oo => uapi.sync_model_body oo uc) o₁ o₂
      (fun hh => SimpleHttpClient.put_ni uapi.users ("/" ++ uc.key) (some uc.dict) o₁ o₂ hh) h,
   fun h => by
      by_cases hc : uapi.config.api_context.level = ApiKeyLevel.ENVIRONMENT_LEVEL_API_KEY
      · simp only [UsersApi.sync_dict, if_pos hc] at h ⊢
        exact sync_dict_body_ni uapi d o₁ o₂ h
      · simp only [UsersApi.sync_dict, if_neg hc],
   fun h => ensure_context_ni _ _ (fun oo => uapi.delete_body oo uk) o₁ o₂
      (fun hh => SimpleHttpClient.delete_ni uapi.users ("/" ++ uk) none o₁ o₂ hh) h,
   fun h => ensure_context_ni _ _ (fun oo => uapi.assign_role_body oo ra) o₁ o₂
      (fun hh => SimpleHttpClient.post_ni uapi.users ("/" ++ ra.user ++ "/roles") (some ra.dictExcludeUser) o₁ o₂ hh) h,
   fun h => ensure_context_ni _ _ (fun oo => uapi.unassign_role_body oo rr) o₁ o₂
      (fun hh => SimpleHttpClient.delete_ni uapi.users ("/" ++ rr.user ++ "/roles") (some rr.dictExcludeUser) o₁ o₂ hh) h,
   fun h => ensure_context_ni _ _ (fun oo => uapi.get_assigned_roles_body oo u tnt page per_page) o₁ o₂
      (fun hh => by
        have hr := hh _ (List.mem_singleton_self _)
        simp only [UsersApi.get_assigned_roles_body, SimpleHttpClient.get]
        rw [hr]) h,
   fun h => ensure_context_ni _ _ (fun oo => eapi.list_body oo pk page per_page) o₁ o₂
      (fun hh => SimpleHttpClient.get_ni eapi.environments ("/v2/projects/" ++ pk ++ "/envs") (pagination_params page per_page) o₁ o₂ hh) h,
   fun h => ensure_context_ni _ _ (fun oo => eapi.get_body oo pk ek) o₁ o₂
      (fun hh => SimpleHttpClient.get_ni eapi.environments (("/v2/projects/" ++ pk ++ "/envs") ++ ("/" ++ ek)) [] o₁ o₂ hh) h,
   fun h => ensure_context_ni _ _ (fun oo => eapi.get oo pk ek) o₁ o₂
      (fun hh => ensure_context_ni _ _ (fun oo => eapi.get_body oo pk ek) o₁ o₂
        (fun h3 => SimpleHttpClient.get_ni eapi.environments (("/v2/projects/" ++ pk ++ "/envs") ++ ("/" ++ ek)) [] o₁ o₂ h3) hh) h,
   fun h => ensure_context_ni _ _ (fun oo => eapi.get oo pk ek) o₁ o₂
      (fun hh => ensure_context_ni _ _ (fun oo => eapi.get_body oo pk ek) o₁ o₂
        (fun h3 => SimpleHttpClient.get_ni eapi.environments (("/v2/projects/" ++ pk ++ "/envs") ++ ("/" ++ ek)) [] o₁ o₂ h3) hh) h,
   fun h => ensure_context_ni _ _ (fun oo => eapi.get_stats_body oo pk ek) o₁ o₂
      (fun hh => SimpleHttpClient.get_ni eapi.environments (("/v2/projects/" ++ pk ++ "/envs") ++ ("/" ++ ek ++ "/stats")) [] o₁ o₂ hh) h,
   fun h => ensure_context_ni _ _ (fun oo => eapi.get_api_key_body oo pk ek) o₁ o₂
      (fun hh => SimpleHttpClient.get_ni eapi.environments ("/v2/api-key/" ++ pk ++ "/" ++ ek) [] o₁ o₂ hh) h,
   fun h => ensure_context_ni _ _ (fun oo => eapi.create_body oo pk ec) o₁ o₂
      (fun hh => SimpleHttpClient.post_ni eapi.environments ("/v2/projects/" ++ pk ++ "/envs") (some ec.dict) o₁ o₂ hh) h,
   fun h => ensure_context_ni _ _ (fun oo => eapi.update_body oo pk ek eu) o₁ o₂
      (fun hh => SimpleHttpClient.patch_ni eapi.environments (("/v2/projects/" ++ pk ++ "/envs") ++ ("/" ++ ek)) (some eu.dict) o₁ o₂ hh) h,
   fun h => ensure_context_ni _ _ (fun oo => eapi.copy_body oo pk ek ecp) o₁ o₂
      (fun hh => SimpleHttpClient.post_ni eapi.environments (("/v2/projects/" ++ pk ++ "/envs") ++ ("/" ++ ek ++ "/copy")) (some ecp.dict) o₁ o₂ hh) h,
   fun h => ensure_context_ni _ _ (fun oo => eapi.delete_body oo pk ek) o₁ o₂
      (fun hh => SimpleHttpClient.delete_ni eapi.environments (("/v2/projects/" ++ pk ++ "/envs") ++ ("/" ++ ek)) none o₁ o₂ hh) h,
   fun h => by
      have hr := h (Openapi.GetDataForUser._get_kwargs oid pk ek uk cl) (List.mem_singleton_self _)
      simp only [Openapi.GetDataForUser.sync_detailed]
      rw [hr],
   fun h => by
      have hr := h (Openapi.GetDataForUser._get_kwargs oid pk ek uk cl) (List.mem_singleton_self _)
      simp only [Openapi.GetDataForUser.sync, Openapi.GetDataForUser.sync_detailed]
      rw [hr],
   fun h => by
      have hr := h (Openapi.GetDataForUser._get_kwargs oid pk ek uk cl) (List.mem_singleton_self _)
      simp only [Openapi.GetDataForUser.asyncio_detailed]
      rw [hr],
   fun h => by
      have hr := h (Openapi.GetDataForUser._get_kwargs oid pk ek uk cl) (List.mem_singleton_self _)
      simp only [Openapi.GetDataForUser.asyncio, Openapi.GetDataForUser.asyncio_detailed]
      rw [hr],
   fun h => by
      have hr := h (Openapi.CreateResource._get_kwargs pk ek acl rc ps) (List.mem_singleton_self _)
      simp only [Openapi.CreateResource.sync_detailed]
      rw [hr],
   fun h => by
      have hr := h (Openapi.CreateResource._get_kwargs pk ek acl rc ps) (List.mem_singleton_self _)
      simp only [Openapi.CreateResource.sync, Openapi.CreateResource.sync_detailed]
      rw [hr],
   fun h => by
      have hr := h (Openapi.CreateResource._get_kwargs pk ek acl rc ps) (List.mem_singleton_self _)
      simp only [Openapi.CreateResource.asyncio_detailed]
      rw [hr],
   fun h => by
      have hr := h (Openapi.CreateResource._get_kwargs pk ek acl rc ps) (List.mem_singleton_self _)
      simp only [Openapi.CreateResource.asyncio, Openapi.CreateResource.asyncio_detailed]
      rw [hr]⟩

/-- A remote that answers 500 on an empty URL and the concrete 200
response otherwise; it agrees with `oracleOk` on every request the SDK
actually issues. -/
def oracleElse : Oracle := fun r => if r.url = "" then resp500 else respOk

/-- A concrete openapi client. -/
def clientC : Openapi.Client := ⟨"https://api.permit.io", [("Accept", "application/json")], [], 5, true⟩

/-- A concrete authenticated openapi client. -/
def aclC : Openapi.AuthenticatedClient :=
  ⟨⟨"https://api.permit.io", [("Accept", "application/json")], [], 5, true⟩, "tok"⟩

/-- C6 witness: two different remotes that agree on the issued requests
give identical results, at concrete inputs. -/
theorem endpoint_results_depend_only_on_remote_response_witness :
    (TenantsApi.init cfgEnv).list oracleOk 1 100 = (TenantsApi.init cfgEnv).list oracleElse 1 100 ∧
    (UsersApi.mk cfgEnv).sync_dict oracleOk [("key", Value.str "alice")] =
      (UsersApi.mk cfgEnv).sync_dict oracleElse [("key", Value.str "alice")] ∧
    Openapi.GetDataForUser.sync "org" "p" "e" "u" clientC oracleOk =
      Openapi.GetDataForUser.sync "org" "p" "e" "u" clientC oracleElse ∧
    Openapi.CreateResource.sync "p" "e" aclC ⟨Value.obj []⟩ none oracleOk =
      Openapi.CreateResource.sync "p" "e" aclC ⟨Value.obj []⟩ none oracleElse := by
  have t := endpoint_results_depend_only_on_remote_response (TenantsApi.init cfgEnv)
    (UsersApi.mk cfgEnv) (EnvironmentsApi.init cfgProj) oracleOk oracleElse 1 100
    "t" "u" "p" "e" "u" "org" none none ⟨Value.obj []⟩ ⟨Value.obj []⟩ ⟨"bob", []⟩ ⟨Value.obj []⟩
    [("key", Value.str "alice")] ⟨"u", "r", "t"⟩ ⟨"u", "r", "t"⟩ ⟨Value.obj []⟩ ⟨Value.obj []⟩
    ⟨Value.obj []⟩ clientC aclC ⟨Value.obj []⟩
  refine ⟨t.1 ?h1, (t.2.2.2.2.2.2.2.2.2.2.2.2.2.2.2.2).1 ?h2, (t.2.2.2.2.2.2.2.2.2.2.2.2.2.2.2.2.2.2.2.2.2.2.2.2.2.2.2.2.2.2.2.2).1 ?h3, (t.2.2.2.2.2.2.2.2.2.2.2.2.2.2.2.2.2.2.2.2.2.2.2.2.2.2.2.2.2.2.2.2.2.2.2.2).1 ?h4⟩
  case h1 =>
    intro r hr
    cases hr with
    | head => rfl
    | tail b hh => cases hh
  case h2 =>
    intro r hr
    cases hr with
    | head => rfl
    | tail b hh => cases hh
  case h3 =>
    intro r hr
    cases hr with
    | head => rfl
    | tail b hh => cases hh
  case h4 =>
    intro r hr
    cases hr with
    | head => rfl
    | tail b hh => cases hh

/-- Removing every entry with the given key from an association list
leaves nothing for that key to look up. -/
theorem lookup_erase_eq_none {β : Type} (d : List (String × β)) (k : String) :
    List.lookup k (List.filter (fun p => p.1 != k) d) = none := by
  induction d with
  | nil => rfl
  | cons x xs ih =>
      rcases x with ⟨a, v⟩
      by_cases ha : a = k
      · simpa [List.filter, ha] using ih
      · have h1 : (a != k) = true := bne_iff_ne.mpr ha
        have h2 : (k == a) = false := beq_eq_false_iff_ne.mpr (Ne.symm ha)
        simp [List.filter, h1, List.lookup, h2, ih]

/-- Removing a key that is absent from an association list leaves the list
unchanged. -/
theorem erase_eq_self_of_lookup_none {β : Type} (d : List (String × β)) (k : String)
    (h : List.lookup k d = none) :
    List.filter (fun p => p.1 != k) d = d := by
  induction d with
  | nil => rfl
  | cons x xs ih =>
      rcases x with ⟨a, v⟩
      by_cases ha : k = a
      · subst ha
        simp only [List.lookup, beq_self_eq_true] at h
        exact absurd h (by simp)
      · have h2 : (k == a) = false := beq_eq_false_iff_ne.mpr ha
        simp only [List.lookup, h2] at h
        have h1 : (a != k) = true := bne_iff_ne.mpr (Ne.symm ha)
        simp only [List.filter, h1, ih h]

/-- C7: `UsersApi.sync` on a dict argument pops the "key" entry from the
caller's dict: with no "key" entry (or an explicit None) it raises
`KeyError` before issuing any HTTP request; otherwise the popped key goes
into the PUT URL path, the remaining dict (mutated in place, never
containing "key") is the PUT body. On a `UserCreate` model, the model is
sent unmodified and its key field is used in the path. -/
theorem sync_pops_key_and_sends_rest :
    (∀ (api : UsersApi) (o : Oracle) (user : PyDict),
      api.config.api_context.level = ApiKeyLevel.ENVIRONMENT_LEVEL_API_KEY →
      List.lookup "key" user = none →
      (api.sync_dict o user).1.requests = [] ∧
      (api.sync_dict o user).1.outcome =
        Except.error (PermitError.keyError "required 'key' in input dictionary") ∧
      (api.sync_dict o user).2 = user) ∧
    (∀ (api : UsersApi) (o : Oracle) (user : PyDict),
      api.config.api_context.level = ApiKeyLevel.ENVIRONMENT_LEVEL_API_KEY →
      List.lookup "key" user = some Value.null →
      (api.sync_dict o user).1.requests = [] ∧
      (api.sync_dict o user).1.outcome =
        Except.error (PermitError.keyError "required 'key' in input dictionary") ∧
      (api.sync_dict o user).2 = List.filter (fun p => p.1 != "key") user) ∧
    (∀ (api : UsersApi) (o : Oracle) (user : PyDict) (v : Value),
      api.config.api_context.level = ApiKeyLevel.ENVIRONMENT_LEVEL_API_KEY →
      List.lookup "key" user = some v → v.isNull = false →
      api.sync_dict o user =
        (api.users.put ("/" ++ v.format)
          (some (Value.obj (List.filter (fun p => p.1 != "key") user))) o,
         List.filter (fun p => p.1 != "key") user)) ∧
    (∀ user : PyDict,
      List.lookup "key" (List.filter (fun p => p.1 != "key") user) = none) ∧
    (∀ (api : UsersApi) (o : Oracle) (uc : UserCreate),
      api.config.api_context.level = ApiKeyLevel.ENVIRONMENT_LEVEL_API_KEY →
      api.sync_model o uc = api.users.put ("/" ++ uc.key) (some uc.dict) o) ∧
    (∀ uc : UserCreate,
      uc.dict = Value.obj (("key", Value.str uc.key) :: uc.attributes)) := by
  refine ⟨?_, ?_, ?_, ?_, ?_, fun uc => rfl⟩
  · intro api o user h hl
    have e : api.sync_dict o user =
        (⟨[], Except.error (PermitError.keyError "required 'key' in input dictionary")⟩,
         List.filter (fun p => p.1 != "key") user) := by
      simp only [UsersApi.sync_dict, if_pos h, UsersApi.sync_dict_body, PyDict.pop, hl]
    rw [e]
    exact ⟨rfl, rfl, erase_eq_self_of_lookup_none user "key" hl⟩
  · intro api o user h hl
    have e : api.sync_dict o user =
        (⟨[], Except.error (PermitError.keyError "required 'key' in input dictionary")⟩,
         List.filter (fun p => p.1 != "key") user) := by
      simp only [UsersApi.sync_dict, if_pos h, UsersApi.sync_dict_body, PyDict.pop, hl]
      rfl
    rw [e]
    exact ⟨rfl, rfl, rfl⟩
  · intro api o user v h hl hnull
    simp only [UsersApi.sync_dict, if_pos h, UsersApi.sync_dict_body, PyDict.pop, hl,
      hnull, Bool.false_eq_true, if_false]
  · intro user
    exact lookup_erase_eq_none user "key"
  · intro api o uc h
    simp only [UsersApi.sync_model, ensure_context, if_pos h]
    rfl

/-- C7 witness: the three dict scenarios and the model scenario at
concrete inputs. -/
theorem sync_pops_key_and_sends_rest_witness :
    (((UsersApi.mk cfgEnv).sync_dict oracleOk [("first_name", Value.str "A")]).1.requests = [] ∧
      ((UsersApi.mk cfgEnv).sync_dict oracleOk [("first_name", Value.str "A")]).1.outcome =
        Except.error (PermitError.keyError "required 'key' in input dictionary") ∧
      ((UsersApi.mk cfgEnv).sync_dict oracleOk [("first_name", Value.str "A")]).2 =
        [("first_name", Value.str "A")]) ∧
    (((UsersApi.mk cfgEnv).sync_dict oracleOk [("key", Value.null), ("x", Value.num 1)]).1.requests = [] ∧
      ((UsersApi.mk cfgEnv).sync_dict oracleOk [("key", Value.null), ("x", Value.num 1)]).1.outcome =
        Except.error (PermitError.keyError "required 'key' in input dictionary") ∧
      ((UsersApi.mk cfgEnv).sync_dict oracleOk [("key", Value.null), ("x", Value.num 1)]).2 =
        List.filter (fun p => p.1 != "key") [("key", Value.null), ("x", Value.num 1)]) ∧
    ((UsersApi.mk cfgEnv).sync_dict oracleOk
        [("key", Value.str "alice"), ("email", Value.str "ab")] =
      ((UsersApi.mk cfgEnv).users.put ("/" ++ (Value.str "alice").format)
        (some (Value.obj (List.filter (fun p => p.1 != "key")
          [("key", Value.str "alice"), ("email", Value.str "ab")]))) oracleOk,
       List.filter (fun p => p.1 != "key")
         [("key", Value.str "alice"), ("email", Value.str "ab")])) ∧
    ((UsersApi.mk cfgEnv).sync_model oracleOk ⟨"bob", [("email", Value.str "bc")]⟩ =
      (UsersApi.mk cfgEnv).users.put ("/" ++ UserCreate.key ⟨"bob", [("email", Value.str "bc")]⟩)
        (some (UserCreate.dict ⟨"bob", [("email", Value.str "bc")]⟩)) oracleOk) :=
  ⟨sync_pops_key_and_sends_rest.1 (UsersApi.mk cfgEnv) oracleOk
      [("first_name", Value.str "A")] rfl rfl,
   sync_pops_key_and_sends_rest.2.1 (UsersApi.mk cfgEnv) oracleOk
      [("key", Value.null), ("x", Value.num 1)] rfl rfl,
   sync_pops_key_and_sends_rest.2.2.1 (UsersApi.mk cfgEnv) oracleOk
      [("key", Value.str "alice"), ("email", Value.str "ab")] (Value.str "alice") rfl rfl rfl,
   sync_pops_key_and_sends_rest.2.2.2.2.1 (UsersApi.mk cfgEnv) oracleOk
      ⟨"bob", [("email", Value.str "bc")]⟩ rfl⟩

/-- A second concrete api context, differing from `ctxEnv` in project and
environment. -/
def ctxEnvB : ApiContext := ⟨.ENVIRONMENT_LEVEL_API_KEY, "proj2", "env2"⟩

/-- C8: `TenantsApi` formats its base URL from `config.api_context` once,
at construction; `UsersApi` recomputes it from the current
`config.api_context` on every call. Hence changing the configured api
context after construction redirects every subsequent `UsersApi` request
URL to the new context but never changes a `TenantsApi` request URL. -/
theorem users_urls_follow_context_tenants_urls_fixed
    (cfg : PermitConfig) (ctx : ApiContext) (o : Oracle) (page per_page : Int)
    (tk uk u : String) (tnt : Option String) (tc : TenantCreate) (tu : TenantUpdate)
    (uc : UserCreate) (uu : UserUpdate) (ra : RoleAssignmentCreate) (rr : RoleAssignmentRemove) :
    (((TenantsApi.init cfg).setContext ctx).tenants = (TenantsApi.init cfg).tenants) ∧
    (urlsOf (((TenantsApi.init cfg).setContext ctx).list_body o page per_page) =
      urlsOf ((TenantsApi.init cfg).list_body o page per_page)) ∧
    (urlsOf (((TenantsApi.init cfg).setContext ctx).list_tenant_users_body o tk page per_page) =
      urlsOf ((TenantsApi.init cfg).list_tenant_users_body o tk page per_page)) ∧
    (urlsOf (((TenantsApi.init cfg).setContext ctx).get_body o tk) =
      urlsOf ((TenantsApi.init cfg).get_body o tk)) ∧
    (urlsOf (((TenantsApi.init cfg).setContext ctx).create_body o tc) =
      urlsOf ((TenantsApi.init cfg).create_body o tc)) ∧
    (urlsOf (((TenantsApi.init cfg).setContext ctx).update_body o tk tu) =
      urlsOf ((TenantsApi.init cfg).update_body o tk tu)) ∧
    (urlsOf (((TenantsApi.init cfg).setContext ctx).delete_body o tk) =
      urlsOf ((TenantsApi.init cfg).delete_body o tk)) ∧
    (urlsOf (((TenantsApi.init cfg).setContext ctx).delete_tenant_user_body o tk uk) =
      urlsOf ((TenantsApi.init cfg).delete_tenant_user_body o tk uk)) ∧
    (((UsersApi.mk cfg).setContext ctx).users.base_url =
      cfg.api_url ++ ("/v2/facts/" ++ ctx.project ++ "/" ++ ctx.environment ++ "/users")) ∧
    (((UsersApi.mk cfg).setContext ctx).role_assignments.base_url =
      cfg.api_url ++ ("/v2/facts/" ++ ctx.project ++ "/" ++ ctx.environment ++ "/role_assignments")) ∧
    (urlsOf (((UsersApi.mk cfg).setContext ctx).list_body o page per_page) =
      [(cfg.api_url ++ ("/v2/facts/" ++ ctx.project ++ "/" ++ ctx.environment ++ "/users")) ++ ""]) ∧
    (urlsOf (((UsersApi.mk cfg).setContext ctx).get_body o uk) =
      [(cfg.api_url ++ ("/v2/facts/" ++ ctx.project ++ "/" ++ ctx.environment ++ "/users")) ++ ("/" ++ uk)]) ∧
    (urlsOf (((UsersApi.mk cfg).setContext ctx).create_body o uc) =
      [(cfg.api_url ++ ("/v2/facts/" ++ ctx.project ++ "/" ++ ctx.environment ++ "/users")) ++ ""]) ∧
    (urlsOf (((UsersApi.mk cfg).setContext ctx).update_body o uk uu) =
      [(cfg.api_url ++ ("/v2/facts/" ++ ctx.project ++ "/" ++ ctx.environment ++ "/users")) ++ ("/" ++ uk)]) ∧
    (urlsOf (((UsersApi.mk cfg).setContext ctx).sync_model_body o uc) =
      [(cfg.api_url ++ ("/v2/facts/" ++ ctx.project ++ "/" ++ ctx.environment ++ "/users")) ++ ("/" ++ uc.key)]) ∧
    (urlsOf (((UsersApi.mk cfg).setContext ctx).delete_body o uk) =
      [(cfg.api_url ++ ("/v2/facts/" ++ ctx.project ++ "/" ++ ctx.environment ++ "/users")) ++ ("/" ++ uk)]) ∧
    (urlsOf (((UsersApi.mk cfg).setContext ctx).assign_role_body o ra) =
      [(cfg.api_url ++ ("/v2/facts/" ++ ctx.project ++ "/" ++ ctx.environment ++ "/users")) ++ ("/" ++ ra.user ++ "/roles")]) ∧
    (urlsOf (((UsersApi.mk cfg).setContext ctx).unassign_role_body o rr) =
      [(cfg.api_url ++ ("/v2/facts/" ++ ctx.project ++ "/" ++ ctx.environment ++ "/users")) ++ ("/" ++ rr.user ++ "/roles")]) ∧
    (urlsOf (((UsersApi.mk cfg).setContext ctx).get_assigned_roles_body o u tnt page per_page) =
      [(cfg.api_url ++ ("/v2/facts/" ++ ctx.project ++ "/" ++ ctx.environment ++ "/role_assignments")) ++ ""]) ∧
    (urlsOf (((UsersApi.mk cfgEnv).setContext ctxEnvB).list_body oracleOk 1 100) ≠
      urlsOf ((UsersApi.mk cfgEnv).list_body oracleOk 1 100)) ∧
    (urlsOf (((TenantsApi.init cfgEnv).setContext ctxEnvB).list_body oracleOk 1 100) =
      urlsOf ((TenantsApi.init cfgEnv).list_body oracleOk 1 100)) := by
  refine ⟨rfl, rfl, rfl, rfl, rfl, rfl, rfl, rfl, rfl, rfl, rfl, rfl, rfl, rfl, rfl,
    rfl, rfl, rfl, rfl, ?_, rfl⟩
  intro hcontra
  exact absurd hcontra (by decide)

/-- C9: the `get_by_key` and `get_by_id` aliases of the three resource API
classes are extensionally equal to `get`: same issued HTTP request, same
result, for every argument, configuration and remote. -/
theorem get_by_key_and_get_by_id_equal_get
    (tapi : TenantsApi) (uapi : UsersApi) (eapi : EnvironmentsApi)
    (o : Oracle) (tk uk pk ek : String) :
    (tapi.get_by_key o tk = tapi.get o tk) ∧
    (tapi.get_by_id o tk = tapi.get o tk) ∧
    (uapi.get_by_key o uk = uapi.get o uk) ∧
    (uapi.get_by_id o uk = uapi.get o uk) ∧
    (eapi.get_by_key o pk ek = eapi.get o pk ek) ∧
    (eapi.get_by_id o pk ek = eapi.get o pk ek) := by
  refine ⟨?_, ?_, ?_, ?_, ?_, ?_⟩
  · by_cases h : tapi.config.api_context.level = ApiKeyLevel.ENVIRONMENT_LEVEL_API_KEY
    · simp only [TenantsApi.get_by_key, ensure_context, if_pos h]
    · simp only [TenantsApi.get_by_key, TenantsApi.get, ensure_context, if_neg h]
  · by_cases h : tapi.config.api_context.level = ApiKeyLevel.ENVIRONMENT_LEVEL_API_KEY
    · simp only [TenantsApi.get_by_id, ensure_context, if_pos h]
    · simp only [TenantsApi.get_by_id, TenantsApi.get, ensure_context, if_neg h]
  · by_cases h : uapi.config.api_context.level = ApiKeyLevel.ENVIRONMENT_LEVEL_API_KEY
    · simp only [UsersApi.get_by_key, ensure_context, if_pos h]
    · simp only [UsersApi.get_by_key, UsersApi.get, ensure_context, if_neg h]
  · by_cases h : uapi.config.api_context.level = ApiKeyLevel.ENVIRONMENT_LEVEL_API_KEY
    · simp only [UsersApi.get_by_id, ensure_context, if_pos h]
    · simp only [UsersApi.get_by_id, UsersApi.get, ensure_context, if_neg h]
  · by_cases h : eapi.config.api_context.level = ApiKeyLevel.PROJECT_LEVEL_API_KEY
    · simp only [EnvironmentsApi.get_by_key, ensure_context, if_pos h]
    · simp only [EnvironmentsApi.get_by_key, EnvironmentsApi.get, ensure_context, if_neg h]
  · by_cases h : eapi.config.api_context.level = ApiKeyLevel.PROJECT_LEVEL_API_KEY
    · simp only [EnvironmentsApi.get_by_id, ensure_context, if_pos h]
    · simp only [EnvironmentsApi.get_by_id, EnvironmentsApi.get, ensure_context, if_neg h]

end Permit
